import Mathlib

/-!
Shallow embedding of the strategy module of the rupendra10/algo repository
(src/algo/strategy.py with constants from src/algo/config.py), together with
proofs of properties of the two strategy classes CalendarPEWeekly and
WeeklyIronfly.

Modelling conventions:
- Python floats are modelled as rationals.
- The Greeks provider (calculate_delta, imported from the external greeks
  module) is an abstract parameter of type DeltaFn.
- The order callback always returns a response record with a status string
  and an optional average price, matching every executor in the repository
  (paper / live / backtest wrappers all return such a record).
- Strategy methods that mutate self and write to the trade journal are
  modelled as state-passing functions returning the new state together with
  the list of order requests issued, in order.
-/

namespace Algo

/-- Option chain entry, as built by the runners and consumed by strategy.py:
keys strike, iv, time_to_expiry, expiry_dt, instrument_key, ltp, type, plus
the calculated_delta key that select_strike_by_delta adds on the copy it
returns. -/
structure Contract where
  strike : ℚ
  iv : ℚ
  time_to_expiry : ℚ
  expiry_dt : String
  instrument_key : String
  ltp : ℚ
  type : String
  calculated_delta : Option ℚ := none
deriving Repr, DecidableEq

/-- Order request, the arguments of one order_callback invocation. -/
structure OrderReq where
  instrument_key : String
  qty : ℕ
  side : String
  tag : String
  expiry : String
deriving Repr, DecidableEq

/-- Order response record, as returned by the order callbacks of the
repository: a status string plus an optional avg_price key. -/
structure OrderResp where
  status : String
  avg_price : Option ℚ
deriving Repr, DecidableEq

/-- The injected order executor (order_callback). -/
abbrev OrderExec := OrderReq → OrderResp

/-- One row of TradeJournal.log_trade (timestamp column omitted). -/
structure Trade where
  instrument_key : String
  side : String
  qty : ℕ
  price : ℚ
  tag : String
  expiry : String
  pnl : Option ℚ
deriving Repr, DecidableEq

/-- The abstract Greeks provider: calculate_delta takes option_type, spot,
strike, time_to_expiry, risk_free_rate and iv. -/
abbrev DeltaFn := String → ℚ → ℚ → ℚ → ℚ → ℚ → ℚ

/-- Configuration constants read by strategy.py from config.py. -/
structure Config where
  ORDER_QUANTITY : ℕ
  MAX_LOSS_VALUE : ℚ
  ENTRY_WEEKLY_DELTA_TARGET : ℚ
  ENTRY_MONTHLY_DELTA_TARGET : ℚ
  WEEKLY_ADJ_TRIGGER_DELTA : ℚ
  WEEKLY_ADJ_TRIGGER_DELTA_LOW : ℚ
  WEEKLY_ROLL_TARGET_DELTA : ℚ
  MONTHLY_ADJ_TRIGGER_DELTA : ℚ
  MONTHLY_ADJ_TRIGGER_DELTA_LOW : ℚ
  MONTHLY_ROLL_TARGET_DELTA_FALL : ℚ
  MONTHLY_ROLL_TARGET_DELTA_RISE : ℚ
  IRONFLY_CAPITAL : ℚ
  IRONFLY_SL_PERCENT : ℚ
  IRONFLY_TARGET_PERCENT : ℚ
  IRONFLY_LEG1_OFFSET : ℚ
  IRONFLY_LEG2_OFFSET : ℚ
  IRONFLY_LEG3_OFFSET : ℚ
  IRONFLY_ADJ_INWARD_OFFSET : ℚ
deriving Repr, DecidableEq

/-- The concrete values of config.py. -/
def config : Config where
  ORDER_QUANTITY := 75
  MAX_LOSS_VALUE := 15000
  ENTRY_WEEKLY_DELTA_TARGET := 1/2
  ENTRY_MONTHLY_DELTA_TARGET := 1/2
  WEEKLY_ADJ_TRIGGER_DELTA := 4/5
  WEEKLY_ADJ_TRIGGER_DELTA_LOW := 1/10
  WEEKLY_ROLL_TARGET_DELTA := 1/2
  MONTHLY_ADJ_TRIGGER_DELTA := 9/10
  MONTHLY_ADJ_TRIGGER_DELTA_LOW := 1/10
  MONTHLY_ROLL_TARGET_DELTA_FALL := 1/2
  MONTHLY_ROLL_TARGET_DELTA_RISE := 7/20
  IRONFLY_CAPITAL := 180000
  IRONFLY_SL_PERCENT := 1/100
  IRONFLY_TARGET_PERCENT := 3/100
  IRONFLY_LEG1_OFFSET := -50
  IRONFLY_LEG2_OFFSET := -250
  IRONFLY_LEG3_OFFSET := -450
  IRONFLY_ADJ_INWARD_OFFSET := 100

/-- Python round to int: round half to even (bankers rounding). -/
def pyRound (q : ℚ) : ℤ :=
  if q - ⌊q⌋ < 1/2 then ⌊q⌋
  else if q - ⌊q⌋ > 1/2 then ⌊q⌋ + 1
  else if ⌊q⌋ % 2 = 0 then ⌊q⌋ else ⌊q⌋ + 1

/-- Helper for the Python substring test: does pat occur as a contiguous
sublist of the character list. -/
def charInfix (pat : List Char) : List Char → Bool
  | [] => pat.isEmpty
  | c :: rest => pat.isPrefixOf (c :: rest) || charInfix pat rest

/-- Python substring test (pat in s). -/
def strContains (s pat : String) : Bool :=
  charInfix pat.data s.data

/-- Absolute computed delta of a chain entry: abs of calculate_delta applied
exactly as in select_strike_by_delta. -/
def cDelta (dfn : DeltaFn) (rate spot : ℚ) (option_type : String) (c : Contract) : ℚ :=
  |dfn option_type spot c.strike c.time_to_expiry rate c.iv|

/-- Distance of the absolute delta of a chain entry from the target. -/
def cDiff (dfn : DeltaFn) (rate spot target : ℚ) (option_type : String) (c : Contract) : ℚ :=
  |cDelta dfn rate spot option_type c - target|

/-- The copy of a chain entry that select_strike_by_delta keeps as best
candidate: opt.copy() with the calculated_delta key set. -/
def cCopy (dfn : DeltaFn) (rate spot : ℚ) (option_type : String) (c : Contract) : Contract :=
  { c with calculated_delta := some (cDelta dfn rate spot option_type c) }

/-- The scan loop of CalendarPEWeekly.select_strike_by_delta: walks the chain
keeping the best candidate and its min_diff; the initial accumulator none
plays the role of best_strike = None with min_diff = infinity. -/
def selectLoop (dfn : DeltaFn) (rate spot target : ℚ) (option_type : String) :
    List Contract → Option (Contract × ℚ) → Option (Contract × ℚ)
  | [], best => best
  | opt :: rest, best =>
    if opt.type ≠ option_type then
      selectLoop dfn rate spot target option_type rest best
    else
      let diff := cDiff dfn rate spot target option_type opt
      match best with
      | none =>
        selectLoop dfn rate spot target option_type rest
          (some (cCopy dfn rate spot option_type opt, diff))
      | some (b, min_diff) =>
        if diff < min_diff then
          selectLoop dfn rate spot target option_type rest
            (some (cCopy dfn rate spot option_type opt, diff))
        else
          selectLoop dfn rate spot target option_type rest (some (b, min_diff))

/-- One calendar position record as stored in self.weekly_position or
self.monthly_position. -/
structure Position where
  leg : String
  strike : ℚ
  expiry : ℚ
  iv : ℚ
  delta : ℚ
  entry_spot : ℚ
  instrument_key : String
  entry_price : ℚ
  type : String
  expiry_dt : String
deriving Repr, DecidableEq

/-- Mutable state of a CalendarPEWeekly instance relevant to the claims: the
two position slots and the trade journal rows written so far. -/
structure CalState where
  weekly_position : Option Position
  monthly_position : Option Position
  journal : List Trade
deriving Repr, DecidableEq

/-- The position record built from a freshly selected weekly leg and its
fill price, as written by enter_strategy and adjust_weekly_leg. -/
def mkWeeklyPosition (spot : ℚ) (leg : Contract) (entry_price : ℚ) : Position where
  leg := "weekly_sell"
  strike := leg.strike
  expiry := leg.time_to_expiry
  iv := leg.iv
  delta := leg.calculated_delta.getD 0
  entry_spot := spot
  instrument_key := leg.instrument_key
  entry_price := entry_price
  type := leg.type
  expiry_dt := leg.expiry_dt

/-- The position record built from a freshly selected monthly leg and its
fill price, as written by enter_strategy and adjust_monthly_leg. -/
def mkMonthlyPosition (spot : ℚ) (leg : Contract) (entry_price : ℚ) : Position where
  leg := "monthly_buy"
  strike := leg.strike
  expiry := leg.time_to_expiry
  iv := leg.iv
  delta := leg.calculated_delta.getD 0
  entry_spot := spot
  instrument_key := leg.instrument_key
  entry_price := entry_price
  type := leg.type
  expiry_dt := leg.expiry_dt

namespace CalendarPEWeekly

/-- CalendarPEWeekly.select_strike_by_delta: finds the chain entry of the
requested type whose absolute delta is closest to the target, returning a
copy augmented with calculated_delta; the tolerance argument is accepted but
never used, exactly as in the source. -/
def select_strike_by_delta (dfn : DeltaFn) (rate spot : ℚ) (chain : List Contract)
    (target_delta : ℚ) (option_type : String := "p") (tolerance : ℚ := 1/10) :
    Option Contract :=
  (selectLoop dfn rate spot target_delta option_type chain none).map Prod.fst

/-- CalendarPEWeekly.enter_strategy: resets both slots, selects both legs,
aborts with no orders if either selection fails, then sells the weekly leg
and buys the monthly leg; if the weekly order fails it stops, and if the
monthly order fails after the weekly filled it immediately buys back the
weekly leg, journals the compensating close with its P&L, and clears the
slot. Returns the new state and the order requests issued in order. -/
def enter_strategy (dfn : DeltaFn) (rate : ℚ) (cfg : Config) (spot : ℚ)
    (weekly_chain monthly_chain : List Contract) (exec : OrderExec) (st : CalState) :
    CalState × List OrderReq :=
  -- Reset any partial state
  let st0 : CalState := { st with weekly_position := none, monthly_position := none }
  -- 1. Select Legs
  match select_strike_by_delta dfn rate spot weekly_chain cfg.ENTRY_WEEKLY_DELTA_TARGET "p" (1/10),
        select_strike_by_delta dfn rate spot monthly_chain cfg.ENTRY_MONTHLY_DELTA_TARGET "p" (1/10) with
  | some weekly_leg, some monthly_leg =>
    -- 2. Execute Entry (SELL Weekly first, then BUY Monthly)
    let req_w : OrderReq :=
      ⟨weekly_leg.instrument_key, cfg.ORDER_QUANTITY, "SELL", "WEEKLY_ENTRY", weekly_leg.expiry_dt⟩
    let resp_w := exec req_w
    if resp_w.status = "success" then
      let entry_price := resp_w.avg_price.getD weekly_leg.ltp
      let st1 : CalState :=
        { st0 with
          weekly_position := some (mkWeeklyPosition spot weekly_leg entry_price),
          journal := st0.journal ++
            [⟨weekly_leg.instrument_key, "SELL", cfg.ORDER_QUANTITY, entry_price,
              "WEEKLY_ENTRY", weekly_leg.expiry_dt, none⟩] }
      let req_m : OrderReq :=
        ⟨monthly_leg.instrument_key, cfg.ORDER_QUANTITY, "BUY", "MONTHLY_ENTRY", monthly_leg.expiry_dt⟩
      let resp_m := exec req_m
      if resp_m.status = "success" then
        let entry_price_m := resp_m.avg_price.getD monthly_leg.ltp
        let st2 : CalState :=
          { st1 with
            monthly_position := some (mkMonthlyPosition spot monthly_leg entry_price_m),
            journal := st1.journal ++
              [⟨monthly_leg.instrument_key, "BUY", cfg.ORDER_QUANTITY, entry_price_m,
                "MONTHLY_ENTRY", monthly_leg.expiry_dt, none⟩] }
        (st2, [req_w, req_m])
      else
        -- EMERGENCY: Weekly was sold, but Monthly failed. Square off Weekly.
        let req_e : OrderReq :=
          ⟨weekly_leg.instrument_key, cfg.ORDER_QUANTITY, "BUY", "EMERGENCY_EXIT", weekly_leg.expiry_dt⟩
        let resp_exit := exec req_e
        let exit_price := resp_exit.avg_price.getD 0
        let pnl := (entry_price - exit_price) * (cfg.ORDER_QUANTITY : ℚ)
        let st2 : CalState :=
          { st1 with
            weekly_position := none,
            journal := st1.journal ++
              [⟨weekly_leg.instrument_key, "BUY", cfg.ORDER_QUANTITY, exit_price,
                "EMERGENCY_EXIT", weekly_leg.expiry_dt, some pnl⟩] }
        (st2, [req_w, req_m, req_e])
    else
      -- CRITICAL ERROR: weekly sell failed, abort with both slots reset
      (st0, [req_w])
  | _, _ => (st0, [])

/-- Tail of CalendarPEWeekly.adjust_weekly_leg: step 3, entering the new
weekly leg after the slot was cleared. -/
def weekly_roll_entry (cfg : Config) (spot : ℚ) (new_leg : Contract)
    (exec : OrderExec) (st : CalState) : CalState × List OrderReq :=
  let req : OrderReq :=
    ⟨new_leg.instrument_key, cfg.ORDER_QUANTITY, "SELL", "WEEKLY_ROLL_ENTRY", new_leg.expiry_dt⟩
  let resp := exec req
  if resp.status = "success" then
    let entry_price := resp.avg_price.getD new_leg.ltp
    ({ st with
        weekly_position := some (mkWeeklyPosition spot new_leg entry_price),
        journal := st.journal ++
          [⟨new_leg.instrument_key, "SELL", cfg.ORDER_QUANTITY, entry_price,
            "WEEKLY_ROLL_ENTRY", new_leg.expiry_dt, none⟩] }, [req])
  else
    -- CRITICAL ERROR: roll entry failed, currently NAKED: slot stays empty
    (st, [req])

/-- CalendarPEWeekly.adjust_weekly_leg: selects the replacement first and
aborts with no orders if none exists; then closes the held weekly leg,
aborting with the slot unchanged if the exit order does not succeed; on a
successful exit it journals the close with P&L (entry - exit) * qty, clears
the slot and enters the new leg. -/
def adjust_weekly_leg (dfn : DeltaFn) (rate : ℚ) (cfg : Config) (spot : ℚ)
    (chain : List Contract) (exec : OrderExec) (st : CalState) :
    CalState × List OrderReq :=
  -- 1. Select New Leg first to ensure we have a target
  match select_strike_by_delta dfn rate spot chain cfg.WEEKLY_ROLL_TARGET_DELTA "p" (1/10) with
  | none => (st, [])
  | some new_leg =>
    -- 2. Exit Existing
    match st.weekly_position with
    | some wp =>
      let req : OrderReq :=
        ⟨wp.instrument_key, cfg.ORDER_QUANTITY, "BUY", "WEEKLY_EXIT_ADJ", wp.expiry_dt⟩
      let resp := exec req
      if resp.status = "success" then
        let exit_price := resp.avg_price.getD 0
        let pnl := (wp.entry_price - exit_price) * (cfg.ORDER_QUANTITY : ℚ)
        let st1 : CalState :=
          { st with
            weekly_position := none,
            journal := st.journal ++
              [⟨wp.instrument_key, "BUY", cfg.ORDER_QUANTITY, exit_price,
                "WEEKLY_EXIT_ADJ", wp.expiry_dt, some pnl⟩] }
        let r := weekly_roll_entry cfg spot new_leg exec st1
        (r.1, req :: r.2)
      else
        -- CRITICAL ERROR: exit failed, abort adjustment
        (st, [req])
    | none =>
      weekly_roll_entry cfg spot new_leg exec { st with weekly_position := none }

/-- Tail of CalendarPEWeekly.adjust_monthly_leg: step 3, entering the new
monthly leg after the slot was cleared. -/
def monthly_roll_entry (cfg : Config) (spot : ℚ) (new_leg : Contract)
    (exec : OrderExec) (st : CalState) : CalState × List OrderReq :=
  let req : OrderReq :=
    ⟨new_leg.instrument_key, cfg.ORDER_QUANTITY, "BUY", "MONTHLY_ROLL_ENTRY", new_leg.expiry_dt⟩
  let resp := exec req
  if resp.status = "success" then
    let entry_price := resp.avg_price.getD new_leg.ltp
    ({ st with
        monthly_position := some (mkMonthlyPosition spot new_leg entry_price),
        journal := st.journal ++
          [⟨new_leg.instrument_key, "BUY", cfg.ORDER_QUANTITY, entry_price,
            "MONTHLY_ROLL_ENTRY", new_leg.expiry_dt, none⟩] }, [req])
  else
    -- CRITICAL ERROR: roll entry failed, currently UNHEDGED: slot stays empty
    (st, [req])

/-- CalendarPEWeekly.adjust_monthly_leg: same roll discipline as the weekly
leg but on the long side: replacement selected first, exit via a SELL order,
P&L (exit - entry) * qty, abort with the slot unchanged on exit failure. -/
def adjust_monthly_leg (dfn : DeltaFn) (rate : ℚ) (cfg : Config) (spot : ℚ)
    (chain : List Contract) (target_delta : ℚ) (exec : OrderExec) (st : CalState) :
    CalState × List OrderReq :=
  -- 1. Select New Leg
  match select_strike_by_delta dfn rate spot chain target_delta "p" (1/10) with
  | none => (st, [])
  | some new_leg =>
    -- 2. Exit Existing
    match st.monthly_position with
    | some mp =>
      let req : OrderReq :=
        ⟨mp.instrument_key, cfg.ORDER_QUANTITY, "SELL", "MONTHLY_EXIT_ADJ", mp.expiry_dt⟩
      let resp := exec req
      if resp.status = "success" then
        let exit_price := resp.avg_price.getD 0
        let pnl := (exit_price - mp.entry_price) * (cfg.ORDER_QUANTITY : ℚ)
        let st1 : CalState :=
          { st with
            monthly_position := none,
            journal := st.journal ++
              [⟨mp.instrument_key, "SELL", cfg.ORDER_QUANTITY, exit_price,
                "MONTHLY_EXIT_ADJ", mp.expiry_dt, some pnl⟩] }
        let r := monthly_roll_entry cfg spot new_leg exec st1
        (r.1, req :: r.2)
      else
        -- CRITICAL ERROR: exit failed, abort adjustment
        (st, [req])
    | none =>
      monthly_roll_entry cfg spot new_leg exec { st with monthly_position := none }

/-- CalendarPEWeekly.check_adjustments: with both legs held, fires the weekly
roll when the stored delta breaches the high or the low trigger, then fires
the monthly roll on its own two-sided test, passing the fall roll target
after a high breach and the rise roll target after a low breach. The source
re-reads self.monthly_position after the weekly roll, which never touches
the monthly slot, so the inner none branch is unreachable. Returns the new
state, the orders issued, and the adjustment_made flag. -/
def check_adjustments (dfn : DeltaFn) (rate : ℚ) (cfg : Config) (spot : ℚ)
    (weekly_chain monthly_chain : List Contract) (exec : OrderExec) (st : CalState) :
    (CalState × List OrderReq) × Bool :=
  match st.weekly_position, st.monthly_position with
  | some wp, some _ =>
    -- 1. Weekly Put (Sell Leg) Adjustments
    let w : (CalState × List OrderReq) × Bool :=
      if wp.delta ≥ cfg.WEEKLY_ADJ_TRIGGER_DELTA then
        (adjust_weekly_leg dfn rate cfg spot weekly_chain exec st, true)
      else if wp.delta ≤ cfg.WEEKLY_ADJ_TRIGGER_DELTA_LOW then
        (adjust_weekly_leg dfn rate cfg spot weekly_chain exec st, true)
      else ((st, []), false)
    -- 2. Next-Month Put (Buy Leg) Adjustments
    match w.1.1.monthly_position with
    | some mp =>
      if mp.delta ≥ cfg.MONTHLY_ADJ_TRIGGER_DELTA then
        let r := adjust_monthly_leg dfn rate cfg spot monthly_chain
          cfg.MONTHLY_ROLL_TARGET_DELTA_FALL exec w.1.1
        ((r.1, w.1.2 ++ r.2), true)
      else if mp.delta ≤ cfg.MONTHLY_ADJ_TRIGGER_DELTA_LOW then
        let r := adjust_monthly_leg dfn rate cfg spot monthly_chain
          cfg.MONTHLY_ROLL_TARGET_DELTA_RISE exec w.1.1
        ((r.1, w.1.2 ++ r.2), true)
      else w
    | none => w
  | _, _ => ((st, []), false)

/-- CalendarPEWeekly.exit_all_positions: squares off each held leg with a
reverse-side order, journals the close with its P&L when the order reports
success, and unconditionally clears both slots at the end. -/
def exit_all_positions (cfg : Config) (exec : OrderExec) (reason : String)
    (st : CalState) : CalState × List OrderReq :=
  let w : CalState × List OrderReq :=
    match st.weekly_position with
    | some wp =>
      let req : OrderReq :=
        ⟨wp.instrument_key, cfg.ORDER_QUANTITY, "BUY", "EXIT_" ++ reason, wp.expiry_dt⟩
      let resp := exec req
      if resp.status = "success" then
        let exit_price := resp.avg_price.getD 0
        let pnl := (wp.entry_price - exit_price) * (cfg.ORDER_QUANTITY : ℚ)
        ({ st with journal := st.journal ++
            [⟨wp.instrument_key, "BUY", cfg.ORDER_QUANTITY, exit_price,
              "EXIT_" ++ reason, wp.expiry_dt, some pnl⟩] }, [req])
      else (st, [req])
    | none => (st, [])
  let m : CalState × List OrderReq :=
    match st.monthly_position with
    | some mp =>
      let req : OrderReq :=
        ⟨mp.instrument_key, cfg.ORDER_QUANTITY, "SELL", "EXIT_" ++ reason, mp.expiry_dt⟩
      let resp := exec req
      if resp.status = "success" then
        let exit_price := resp.avg_price.getD 0
        let pnl := (exit_price - mp.entry_price) * (cfg.ORDER_QUANTITY : ℚ)
        ({ w.1 with journal := w.1.journal ++
            [⟨mp.instrument_key, "SELL", cfg.ORDER_QUANTITY, exit_price,
              "EXIT_" ++ reason, mp.expiry_dt, some pnl⟩] }, [req])
      else (w.1, [req])
    | none => (w.1, [])
  ({ m.1 with weekly_position := none, monthly_position := none }, w.2 ++ m.2)

/-- CalendarPEWeekly.check_portfolio_risk: disabled for a non-positive max
loss; a no-op unless both legs are held; computes the summed unrealized P&L
with the short / long sign conventions and force-exits everything when it is
at or below the negative absolute threshold. Returns ((state, orders),
fired). -/
def check_portfolio_risk (cfg : Config) (weekly_ltp monthly_ltp : ℚ)
    (exec : OrderExec) (st : CalState) : (CalState × List OrderReq) × Bool :=
  -- Skip if disabled
  if cfg.MAX_LOSS_VALUE ≤ 0 then ((st, []), false)
  else
    match st.weekly_position, st.monthly_position with
    | some wp, some mp =>
      let weekly_pnl := (wp.entry_price - weekly_ltp) * (cfg.ORDER_QUANTITY : ℚ)
      let monthly_pnl := (monthly_ltp - mp.entry_price) * (cfg.ORDER_QUANTITY : ℚ)
      let total_pnl := weekly_pnl + monthly_pnl
      if total_pnl ≤ -|cfg.MAX_LOSS_VALUE| then
        (exit_all_positions cfg exec "MAX_LOSS" st, true)
      else ((st, []), false)
    | _, _ => ((st, []), false)

end CalendarPEWeekly

/-- One WeeklyIronfly position record as appended to self.positions. -/
structure IFPosition where
  instrument_key : String
  qty : ℕ
  side : String
  entry_price : ℚ
  strike : ℚ
  type : String
  tag : String
  expiry_dt : String
deriving Repr, DecidableEq

/-- Mutable state of a WeeklyIronfly instance relevant to the claims. -/
structure IFState where
  positions : List IFPosition
  is_adjusted : Bool
  journal : List Trade
deriving Repr, DecidableEq

/-- Quote map of a market snapshot: last traded price per instrument key. -/
abbrev Quotes := String → Option ℚ

namespace WeeklyIronfly

/-- Order execution step of WeeklyIronfly.enter_strategy for one validated
leg: place the order and, only on success, append the position record and
journal the opening trade; a failed leg is logged but skipped. -/
def execute_leg (opt : Contract) (side : String) (qty : ℕ) (tag : String)
    (exec : OrderExec) (st : IFState) : IFState × List OrderReq :=
  let req : OrderReq := ⟨opt.instrument_key, qty, side, tag, opt.expiry_dt⟩
  let resp := exec req
  if resp.status = "success" then
    let price := resp.avg_price.getD opt.ltp
    ({ st with
        positions := st.positions ++
          [⟨opt.instrument_key, qty, side, price, opt.strike, "PE", tag, opt.expiry_dt⟩],
        journal := st.journal ++
          [⟨opt.instrument_key, side, qty, price, tag, opt.expiry_dt, none⟩] }, [req])
  else
    -- CRITICAL ERROR: leg order failed, strategy may be incomplete
    (st, [req])

/-- WeeklyIronfly.enter_strategy: computes the ATM strike by Python round of
spot / 50 times 50, derives the three put-butterfly strikes from the config
offsets, and atomically checks that a put exists in the chain at each strike
before placing any order; with all three validated it executes buy one,
sell two, buy one in sequence. -/
def enter_strategy (cfg : Config) (spot : ℚ) (weekly_chain : List Contract)
    (exec : OrderExec) (st : IFState) : IFState × List OrderReq :=
  let atm : ℚ := ((pyRound (spot / 50) : ℤ) : ℚ) * 50
  let k1 := atm + cfg.IRONFLY_LEG1_OFFSET
  let k2 := atm + cfg.IRONFLY_LEG2_OFFSET
  let k3 := atm + cfg.IRONFLY_LEG3_OFFSET
  -- ATOMIC CHECK: verify all legs exist in chain before placing any orders
  match weekly_chain.find? (fun x => x.strike == k1 && x.type == "p"),
        weekly_chain.find? (fun x => x.strike == k2 && x.type == "p"),
        weekly_chain.find? (fun x => x.strike == k3 && x.type == "p") with
  | some l1, some l2, some l3 =>
    let r1 := execute_leg l1 "BUY" cfg.ORDER_QUANTITY "IF_LEG1" exec st
    let r2 := execute_leg l2 "SELL" (cfg.ORDER_QUANTITY * 2) "IF_LEG2" exec r1.1
    let r3 := execute_leg l3 "BUY" cfg.ORDER_QUANTITY "IF_LEG3" exec r2.1
    (r3.1, r1.2 ++ r2.2 ++ r3.2)
  | _, _, _ => (st, [])

/-- WeeklyIronfly.calculate_total_pnl: sums per-leg unrealized P&L over the
open positions, using the entry price as fallback when no quote exists. -/
def calculate_total_pnl (quotes : Quotes) (positions : List IFPosition) : ℚ :=
  positions.foldl (fun pnl pos =>
    let ltp := (quotes pos.instrument_key).getD pos.entry_price
    if pos.side == "BUY" then pnl + (ltp - pos.entry_price) * (pos.qty : ℚ)
    else pnl + (pos.entry_price - ltp) * (pos.qty : ℚ)) 0

/-- Reference-leg resolution inside WeeklyIronfly.apply_adjustment: the
position tagged IF_LEG1 (Python substring test), falling back to the first
position when the tag is missing. -/
def leg1_lookup (positions : List IFPosition) : Option IFPosition :=
  match positions.find? (fun p => strContains p.tag "IF_LEG1") with
  | some l => some l
  | none => positions.head?

/-- WeeklyIronfly.apply_adjustment: skips when the next-week chain is empty
or no leg can serve as reference; otherwise takes the IF_LEG1 position (or
the first position as fallback), moves the strike inward by the configured
offset, looks up the call at that strike in both chains, and if both exist
places the sell-this-week / buy-next-week calendar pair, appending a
position and a journal row for each successful order, and finally marks the
structure adjusted regardless of either order's status. -/
def apply_adjustment (cfg : Config) (spot : ℚ)
    (current_week_chain next_week_chain : List Contract) (exec : OrderExec)
    (st : IFState) : IFState × List OrderReq :=
  -- Check if next week data is available
  if next_week_chain = [] then (st, [])
  else
    match leg1_lookup st.positions with
    | none => (st, [])
    | some leg1 =>
      let adj_strike := leg1.strike + cfg.IRONFLY_ADJ_INWARD_OFFSET
      match current_week_chain.find? (fun x => x.strike == adj_strike && x.type == "c"),
            next_week_chain.find? (fun x => x.strike == adj_strike && x.type == "c") with
      | some ce_this_week, some ce_next_week =>
        let req_w : OrderReq :=
          ⟨ce_this_week.instrument_key, cfg.ORDER_QUANTITY, "SELL", "IF_ADJ_CE_SHORT",
            ce_this_week.expiry_dt⟩
        let req_n : OrderReq :=
          ⟨ce_next_week.instrument_key, cfg.ORDER_QUANTITY, "BUY", "IF_ADJ_CE_LONG",
            ce_next_week.expiry_dt⟩
        let resp_w := exec req_w
        let resp_n := exec req_n
        let st1 : IFState :=
          if resp_w.status = "success" then
            let price_w := resp_w.avg_price.getD ce_this_week.ltp
            { st with
              positions := st.positions ++
                [⟨ce_this_week.instrument_key, cfg.ORDER_QUANTITY, "SELL", price_w,
                  adj_strike, "CE", "IF_ADJ_CE_SHORT", ce_this_week.expiry_dt⟩],
              journal := st.journal ++
                [⟨ce_this_week.instrument_key, "SELL", cfg.ORDER_QUANTITY, price_w,
                  "IF_ADJ_CE_SHORT", ce_this_week.expiry_dt, none⟩] }
          else st
        let st2 : IFState :=
          if resp_n.status = "success" then
            let price_n := resp_n.avg_price.getD ce_next_week.ltp
            { st1 with
              positions := st1.positions ++
                [⟨ce_next_week.instrument_key, cfg.ORDER_QUANTITY, "BUY", price_n,
                  adj_strike, "CE", "IF_ADJ_CE_LONG", ce_next_week.expiry_dt⟩],
              journal := st1.journal ++
                [⟨ce_next_week.instrument_key, "BUY", cfg.ORDER_QUANTITY, price_n,
                  "IF_ADJ_CE_LONG", ce_next_week.expiry_dt, none⟩] }
          else st1
        ({ st2 with is_adjusted := true }, [req_w, req_n])
      | _, _ => (st, [])

/-- WeeklyIronfly.exit_all_positions: places a reverse-side order for every
open position, ignoring every response, then clears the position list and
resets the adjusted flag; nothing is ever appended to the trade journal. -/
def exit_all_positions (exec : OrderExec) (reason : String) (st : IFState) :
    IFState × List OrderReq :=
  let reqs := st.positions.map (fun pos =>
    ({ instrument_key := pos.instrument_key, qty := pos.qty,
       side := if pos.side == "BUY" then "SELL" else "BUY",
       tag := reason ++ "_EXIT", expiry := pos.expiry_dt } : OrderReq))
  -- each request is passed to the order callback; the responses are unused
  let _ := reqs.map exec
  ({ st with positions := [], is_adjusted := false }, reqs)

/-- PnL monitoring stage of WeeklyIronfly.update (its step 3): with open
positions, computes floating P&L as a fraction of the configured capital,
exits on target, and on a stop-loss breach either applies the calendar
adjustment (when not yet adjusted; note the source calls apply_adjustment
with nw_chain as the current-week argument and cw_chain as the next-week
argument, and the can_adjust flag gates only a log line) or, when already
adjusted, force-exits everything. The earlier timing steps of update do not
feed into this logic. -/
def update_pnl_monitor (cfg : Config) (spot : ℚ) (quotes : Quotes)
    (cw_chain nw_chain : List Contract) (exec : OrderExec) (st : IFState) :
    IFState × List OrderReq :=
  if st.positions = [] then (st, [])
  else
    let total_pnl := calculate_total_pnl quotes st.positions
    let pnl_pct := total_pnl / cfg.IRONFLY_CAPITAL
    if pnl_pct ≥ cfg.IRONFLY_TARGET_PERCENT then
      exit_all_positions exec "TARGET_HIT" st
    else if pnl_pct ≤ -cfg.IRONFLY_SL_PERCENT then
      if !st.is_adjusted then
        apply_adjustment cfg spot nw_chain cw_chain exec st
      else
        exit_all_positions exec "POST_ADJ_SL_HIT" st
    else (st, [])

end WeeklyIronfly

section SelectorLemmas

variable (dfn : DeltaFn) (rate spot target : ℚ) (t : String)

/-- Invariant of the scan loop of select_strike_by_delta when started with a
populated accumulator: the loop returns an entry, and either the accumulator
survives because no later candidate strictly beats min_diff, or the first
candidate strictly below min_diff that no later candidate strictly beats is
returned as a copy. -/
lemma selectLoop_acc (l : List Contract) :
    ∀ (b : Contract) (mb : ℚ),
      ∃ b' m', selectLoop dfn rate spot target t l (some (b, mb)) = some (b', m') ∧
        ((b' = b ∧ m' = mb ∧
            ∀ c ∈ l, c.type = t → mb ≤ cDiff dfn rate spot target t c)
         ∨ (∃ pre c post, l = pre ++ c :: post ∧ c.type = t ∧
              cDiff dfn rate spot target t c < mb ∧
              b' = cCopy dfn rate spot t c ∧
              m' = cDiff dfn rate spot target t c ∧
              (∀ c2 ∈ pre, c2.type = t →
                cDiff dfn rate spot target t c < cDiff dfn rate spot target t c2) ∧
              (∀ c2 ∈ l, c2.type = t →
                cDiff dfn rate spot target t c ≤ cDiff dfn rate spot target t c2))) := by
  induction l with
  | nil =>
    intro b mb
    exact ⟨b, mb, rfl, Or.inl ⟨rfl, rfl, by simp⟩⟩
  | cons opt rest ih =>
    intro b mb
    by_cases ht : opt.type = t
    · by_cases hlt : cDiff dfn rate spot target t opt < mb
      · obtain ⟨b', m', heq, hcase⟩ := ih (cCopy dfn rate spot t opt)
          (cDiff dfn rate spot target t opt)
        refine ⟨b', m', ?_, ?_⟩
        · simpa [selectLoop, ht, hlt] using heq
        · rcases hcase with ⟨hb', hm', hall⟩ | ⟨pre, c, post, hrest, htc, hclt, hb', hm', hstrict, hglobal⟩
          · refine Or.inr ⟨[], opt, rest, by simp, ht, hlt, by simpa using hb', by simpa using hm', ?_, ?_⟩
            · intro c2 hc2; simp at hc2
            · intro c2 hc2 htc2
              rcases List.mem_cons.mp hc2 with h | h
              · subst h; exact le_refl _
              · exact hall c2 h htc2
          · refine Or.inr ⟨opt :: pre, c, post, by simp [hrest], htc,
              lt_trans hclt hlt, hb', hm', ?_, ?_⟩
            · intro c2 hc2 htc2
              rcases List.mem_cons.mp hc2 with h | h
              · subst h; exact hclt
              · exact hstrict c2 h htc2
            · intro c2 hc2 htc2
              rcases List.mem_cons.mp hc2 with h | h
              · subst h; exact le_of_lt hclt
              · exact hglobal c2 h htc2
      · obtain ⟨b', m', heq, hcase⟩ := ih b mb
        refine ⟨b', m', ?_, ?_⟩
        · simpa [selectLoop, ht, hlt] using heq
        · rcases hcase with ⟨hb', hm', hall⟩ | ⟨pre, c, post, hrest, htc, hclt, hb', hm', hstrict, hglobal⟩
          · refine Or.inl ⟨hb', hm', ?_⟩
            intro c2 hc2 htc2
            rcases List.mem_cons.mp hc2 with h | h
            · subst h; exact not_lt.mp hlt
            · exact hall c2 h htc2
          · refine Or.inr ⟨opt :: pre, c, post, by simp [hrest], htc, hclt, hb', hm', ?_, ?_⟩
            · intro c2 hc2 htc2
              rcases List.mem_cons.mp hc2 with h | h
              · subst h; exact lt_of_lt_of_le hclt (not_lt.mp hlt)
              · exact hstrict c2 h htc2
            · intro c2 hc2 htc2
              rcases List.mem_cons.mp hc2 with h | h
              · subst h; exact le_of_lt (lt_of_lt_of_le hclt (not_lt.mp hlt))
              · exact hglobal c2 h htc2
    · obtain ⟨b', m', heq, hcase⟩ := ih b mb
      refine ⟨b', m', ?_, ?_⟩
      · simpa [selectLoop, ht] using heq
      · rcases hcase with ⟨hb', hm', hall⟩ | ⟨pre, c, post, hrest, htc, hclt, hb', hm', hstrict, hglobal⟩
        · refine Or.inl ⟨hb', hm', ?_⟩
          intro c2 hc2 htc2
          rcases List.mem_cons.mp hc2 with h | h
          · subst h; exact absurd htc2 ht
          · exact hall c2 h htc2
        · refine Or.inr ⟨opt :: pre, c, post, by simp [hrest], htc, hclt, hb', hm', ?_, ?_⟩
          · intro c2 hc2 htc2
            rcases List.mem_cons.mp hc2 with h | h
            · subst h; exact absurd htc2 ht
            · exact hstrict c2 h htc2
          · intro c2 hc2 htc2
            rcases List.mem_cons.mp hc2 with h | h
            · subst h; exact absurd htc2 ht
            · exact hglobal c2 h htc2

/-- Characterization of the scan loop started empty: it returns none exactly
on a chain with no entry of the requested type, and otherwise returns the
copy of the first entry achieving the strict minimum distance. -/
lemma selectLoop_char (l : List Contract) :
    (selectLoop dfn rate spot target t l none = none ∧ ∀ c ∈ l, ¬ c.type = t)
    ∨ (∃ pre c post,
         l = pre ++ c :: post ∧ c.type = t ∧
         selectLoop dfn rate spot target t l none =
           some (cCopy dfn rate spot t c, cDiff dfn rate spot target t c) ∧
         (∀ c2 ∈ pre, c2.type = t →
           cDiff dfn rate spot target t c < cDiff dfn rate spot target t c2) ∧
         (∀ c2 ∈ l, c2.type = t →
           cDiff dfn rate spot target t c ≤ cDiff dfn rate spot target t c2)) := by
  induction l with
  | nil => exact Or.inl ⟨rfl, by simp⟩
  | cons opt rest ih =>
    by_cases ht : opt.type = t
    · obtain ⟨b', m', heq, hcase⟩ := selectLoop_acc dfn rate spot target t rest
        (cCopy dfn rate spot t opt) (cDiff dfn rate spot target t opt)
      rcases hcase with ⟨hb', hm', hall⟩ | ⟨pre, c, post, hrest, htc, hclt, hb', hm', hstrict, hglobal⟩
      · refine Or.inr ⟨[], opt, rest, by simp, ht, ?_, ?_, ?_⟩
        · rw [show selectLoop dfn rate spot target t (opt :: rest) none =
              selectLoop dfn rate spot target t rest
                (some (cCopy dfn rate spot t opt, cDiff dfn rate spot target t opt)) by
              simp [selectLoop, ht]]
          rw [heq, hb', hm']
        · intro c2 hc2; simp at hc2
        · intro c2 hc2 htc2
          rcases List.mem_cons.mp hc2 with h | h
          · subst h; exact le_refl _
          · exact hall c2 h htc2
      · refine Or.inr ⟨opt :: pre, c, post, by simp [hrest], htc, ?_, ?_, ?_⟩
        · rw [show selectLoop dfn rate spot target t (opt :: rest) none =
              selectLoop dfn rate spot target t rest
                (some (cCopy dfn rate spot t opt, cDiff dfn rate spot target t opt)) by
              simp [selectLoop, ht]]
          rw [heq, hb', hm']
        · intro c2 hc2 htc2
          rcases List.mem_cons.mp hc2 with h | h
          · subst h; exact hclt
          · exact hstrict c2 h htc2
        · intro c2 hc2 htc2
          rcases List.mem_cons.mp hc2 with h | h
          · subst h; exact le_of_lt hclt
          · exact hglobal c2 h htc2
    · rcases ih with ⟨hnone, hall⟩ | ⟨pre, c, post, hrest, htc, heq, hstrict, hglobal⟩
      · refine Or.inl ⟨?_, ?_⟩
        · simpa [selectLoop, ht] using hnone
        · intro c2 hc2
          rcases List.mem_cons.mp hc2 with h | h
          · subst h; exact ht
          · exact hall c2 h
      · refine Or.inr ⟨opt :: pre, c, post, by simp [hrest], htc, ?_, ?_, ?_⟩
        · simpa [selectLoop, ht] using heq
        · intro c2 hc2 htc2
          rcases List.mem_cons.mp hc2 with h | h
          · subst h; exact absurd htc2 ht
          · exact hstrict c2 h htc2
        · intro c2 hc2 htc2
          rcases List.mem_cons.mp hc2 with h | h
          · subst h; exact absurd htc2 ht
          · exact hglobal c2 h htc2

end SelectorLemmas

/-- Specification-side predicate, stated from the words of the spec for the
Option Selector: the result is a copy, augmented with the absolute
calculated delta, of a chain entry of the requested type whose distance of
absolute delta to the target is minimal over all entries of that type, and
every earlier entry of that type has strictly larger distance (first
contract achieving the strict minimum wins, ties broken by chain order). -/
def select_by_delta_spec (dfn : DeltaFn) (rate spot target : ℚ) (t : String)
    (chain : List Contract) (r : Contract) : Prop :=
  ∃ pre c post, chain = pre ++ c :: post ∧ c.type = t ∧
    r = cCopy dfn rate spot t c ∧
    (∀ c2 ∈ chain, c2.type = t →
      cDiff dfn rate spot target t c ≤ cDiff dfn rate spot target t c2) ∧
    (∀ c2 ∈ pre, c2.type = t →
      cDiff dfn rate spot target t c < cDiff dfn rate spot target t c2)

/-- C4: for every chain and target, select_strike_by_delta returns none
exactly when the chain has no contract of the requested type, and any
returned contract is the copy, carrying calculated_delta, of the first
chain entry of that type minimizing the distance of absolute delta to the
target; the chain itself is never mutated (the embedding is pure and the
result is a copy of the entry). -/
theorem c4_select_first_min (dfn : DeltaFn) (rate spot target tol : ℚ)
    (t : String) (chain : List Contract) :
    (CalendarPEWeekly.select_strike_by_delta dfn rate spot chain target t tol = none
       ↔ ∀ c ∈ chain, c.type ≠ t) ∧
    (∀ r, CalendarPEWeekly.select_strike_by_delta dfn rate spot chain target t tol = some r →
       select_by_delta_spec dfn rate spot target t chain r) := by
  rcases selectLoop_char dfn rate spot target t chain with
    ⟨hnone, hall⟩ | ⟨pre, c, post, hchain, htc, heq, hstrict, hglobal⟩
  · refine ⟨⟨fun _ c hc => hall c hc, fun _ => ?_⟩, fun r hr => ?_⟩
    · simp [CalendarPEWeekly.select_strike_by_delta, hnone]
    · rw [CalendarPEWeekly.select_strike_by_delta, hnone] at hr
      simp at hr
  · refine ⟨⟨fun h => ?_, fun h => ?_⟩, fun r hr => ?_⟩
    · rw [CalendarPEWeekly.select_strike_by_delta, heq] at h
      simp at h
    · exact absurd htc (h c (by rw [hchain]; simp))
    · rw [CalendarPEWeekly.select_strike_by_delta, heq] at hr
      simp at hr
      exact ⟨pre, c, post, hchain, htc, hr.symm, hglobal, hstrict⟩

/-- Fixture delta function for witnesses: delta depends only on the strike. -/
def dfnW : DeltaFn := fun _ _ strike _ _ _ => strike / 100

/-- Fixture chain for witnesses: two puts and one call. -/
def chainW : List Contract :=
  [⟨48, 15/100, 1/52, "2026-01-06", "NSE_OPT|48PE", 120, "p", none⟩,
   ⟨55, 15/100, 1/52, "2026-01-06", "NSE_OPT|55CE", 80, "c", none⟩,
   ⟨50, 15/100, 1/52, "2026-01-06", "NSE_OPT|50PE", 100, "p", none⟩]

/-- Fixture chain with no puts at all. -/
def chainCallsOnlyW : List Contract :=
  [⟨55, 15/100, 1/52, "2026-01-06", "NSE_OPT|55CE", 80, "c", none⟩]

/-- The contract the selector returns on the fixture chain: the 50 strike
put, whose absolute delta 1/2 matches the target exactly. -/
def rW : Contract :=
  ⟨50, 15/100, 1/52, "2026-01-06", "NSE_OPT|50PE", 100, "p", some (1/2)⟩

/-- Witness for C4 at a concrete chain, target and delta function. -/
theorem c4_select_first_min_witness :
    select_by_delta_spec dfnW (7/100) 21000 (1/2) "p" chainW rW ∧
    CalendarPEWeekly.select_strike_by_delta dfnW (7/100) 21000 chainCallsOnlyW (1/2) "p" (1/10) = none :=
  ⟨(c4_select_first_min dfnW (7/100) 21000 (1/2) (1/10) "p" chainW).2 rW (by
      norm_num [CalendarPEWeekly.select_strike_by_delta, selectLoop, chainW, dfnW,
        cDiff, cDelta, cCopy, rW, abs_of_nonneg, abs_of_nonpos]),
   (c4_select_first_min dfnW (7/100) 21000 (1/2) (1/10) "p" chainCallsOnlyW).1.mpr (by
      intro c hc
      simp only [chainCallsOnlyW, List.mem_singleton] at hc
      subst hc
      decide)⟩

/-- C1: two-leg entry is all-or-nothing. If either selection returns none,
enter_strategy issues no order and both slots end empty; if the weekly sell
fills but the monthly buy fails, a compensating BUY order for the weekly leg
is issued, exactly one closing trade with P&L (entry price - exit price)
times quantity is appended after the opening trade, and both slots end
empty. -/
theorem c1_two_leg_entry_all_or_nothing (dfn : DeltaFn) (rate : ℚ) (cfg : Config)
    (spot : ℚ) (weekly_chain monthly_chain : List Contract) (exec : OrderExec)
    (st : CalState) :
    ((CalendarPEWeekly.select_strike_by_delta dfn rate spot weekly_chain
        cfg.ENTRY_WEEKLY_DELTA_TARGET "p" (1/10) = none ∨
      CalendarPEWeekly.select_strike_by_delta dfn rate spot monthly_chain
        cfg.ENTRY_MONTHLY_DELTA_TARGET "p" (1/10) = none) →
      CalendarPEWeekly.enter_strategy dfn rate cfg spot weekly_chain monthly_chain exec st =
        ({ st with weekly_position := none, monthly_position := none }, [])) ∧
    (∀ wl ml,
      CalendarPEWeekly.select_strike_by_delta dfn rate spot weekly_chain
        cfg.ENTRY_WEEKLY_DELTA_TARGET "p" (1/10) = some wl →
      CalendarPEWeekly.select_strike_by_delta dfn rate spot monthly_chain
        cfg.ENTRY_MONTHLY_DELTA_TARGET "p" (1/10) = some ml →
      (exec ⟨wl.instrument_key, cfg.ORDER_QUANTITY, "SELL", "WEEKLY_ENTRY", wl.expiry_dt⟩).status = "success" →
      (exec ⟨ml.instrument_key, cfg.ORDER_QUANTITY, "BUY", "MONTHLY_ENTRY", ml.expiry_dt⟩).status ≠ "success" →
      CalendarPEWeekly.enter_strategy dfn rate cfg spot weekly_chain monthly_chain exec st =
        ({ st with
            weekly_position := none,
            monthly_position := none,
            journal := st.journal ++
              [⟨wl.instrument_key, "SELL", cfg.ORDER_QUANTITY,
                 (exec ⟨wl.instrument_key, cfg.ORDER_QUANTITY, "SELL", "WEEKLY_ENTRY", wl.expiry_dt⟩).avg_price.getD wl.ltp,
                 "WEEKLY_ENTRY", wl.expiry_dt, none⟩,
               ⟨wl.instrument_key, "BUY", cfg.ORDER_QUANTITY,
                 (exec ⟨wl.instrument_key, cfg.ORDER_QUANTITY, "BUY", "EMERGENCY_EXIT", wl.expiry_dt⟩).avg_price.getD 0,
                 "EMERGENCY_EXIT", wl.expiry_dt,
                 some (((exec ⟨wl.instrument_key, cfg.ORDER_QUANTITY, "SELL", "WEEKLY_ENTRY", wl.expiry_dt⟩).avg_price.getD wl.ltp -
                        (exec ⟨wl.instrument_key, cfg.ORDER_QUANTITY, "BUY", "EMERGENCY_EXIT", wl.expiry_dt⟩).avg_price.getD 0) *
                       (cfg.ORDER_QUANTITY : ℚ))⟩] },
         [⟨wl.instrument_key, cfg.ORDER_QUANTITY, "SELL", "WEEKLY_ENTRY", wl.expiry_dt⟩,
          ⟨ml.instrument_key, cfg.ORDER_QUANTITY, "BUY", "MONTHLY_ENTRY", ml.expiry_dt⟩,
          ⟨wl.instrument_key, cfg.ORDER_QUANTITY, "BUY", "EMERGENCY_EXIT", wl.expiry_dt⟩])) := by
  constructor
  · intro h
    rcases hsel : CalendarPEWeekly.select_strike_by_delta dfn rate spot weekly_chain
        cfg.ENTRY_WEEKLY_DELTA_TARGET "p" (1/10) with _ | wl
    · simp only [CalendarPEWeekly.enter_strategy, hsel]
    · rcases h with h | h
      · rw [hsel] at h; exact absurd h (by simp)
      · simp only [CalendarPEWeekly.enter_strategy, hsel, h]
  · intro wl ml hw hm hws hmf
    simp only [CalendarPEWeekly.enter_strategy, hw, hm, hws, hmf]
    simp [hws, hmf]

/-- C2: a roll never discards the old leg before its exit is confirmed, for
both the weekly and the monthly adjustment: the replacement is selected
before any order, the roll is abandoned with no orders when no replacement
exists, and on a failed exit order the state (in particular the held slot)
is unchanged and the only order issued is that exit order, so no entry
order for the replacement is attempted. -/
theorem c2_roll_preserves_old_leg (dfn : DeltaFn) (rate : ℚ) (cfg : Config)
    (spot : ℚ) (chain : List Contract) (exec : OrderExec) (st : CalState) :
    ((CalendarPEWeekly.select_strike_by_delta dfn rate spot chain
        cfg.WEEKLY_ROLL_TARGET_DELTA "p" (1/10) = none →
      CalendarPEWeekly.adjust_weekly_leg dfn rate cfg spot chain exec st = (st, [])) ∧
     (∀ nl wp,
       CalendarPEWeekly.select_strike_by_delta dfn rate spot chain
         cfg.WEEKLY_ROLL_TARGET_DELTA "p" (1/10) = some nl →
       st.weekly_position = some wp →
       (exec ⟨wp.instrument_key, cfg.ORDER_QUANTITY, "BUY", "WEEKLY_EXIT_ADJ", wp.expiry_dt⟩).status ≠ "success" →
       CalendarPEWeekly.adjust_weekly_leg dfn rate cfg spot chain exec st =
         (st, [⟨wp.instrument_key, cfg.ORDER_QUANTITY, "BUY", "WEEKLY_EXIT_ADJ", wp.expiry_dt⟩]))) ∧
    (∀ target_delta : ℚ,
     (CalendarPEWeekly.select_strike_by_delta dfn rate spot chain
        target_delta "p" (1/10) = none →
      CalendarPEWeekly.adjust_monthly_leg dfn rate cfg spot chain target_delta exec st = (st, [])) ∧
     (∀ nl mp,
       CalendarPEWeekly.select_strike_by_delta dfn rate spot chain
         target_delta "p" (1/10) = some nl →
       st.monthly_position = some mp →
       (exec ⟨mp.instrument_key, cfg.ORDER_QUANTITY, "SELL", "MONTHLY_EXIT_ADJ", mp.expiry_dt⟩).status ≠ "success" →
       CalendarPEWeekly.adjust_monthly_leg dfn rate cfg spot chain target_delta exec st =
         (st, [⟨mp.instrument_key, cfg.ORDER_QUANTITY, "SELL", "MONTHLY_EXIT_ADJ", mp.expiry_dt⟩]))) := by
  refine ⟨⟨fun h => ?_, fun nl wp hsel hwp hfail => ?_⟩,
          fun target_delta => ⟨fun h => ?_, fun nl mp hsel hmp hfail => ?_⟩⟩
  · simp only [CalendarPEWeekly.adjust_weekly_leg, h]
  · simp only [CalendarPEWeekly.adjust_weekly_leg, hsel, hwp]
    simp [hfail]
  · simp only [CalendarPEWeekly.adjust_monthly_leg, h]
  · simp only [CalendarPEWeekly.adjust_monthly_leg, hsel, hmp]
    simp [hfail]

/-- Helper: exit_all_positions always ends with both calendar slots empty. -/
lemma exit_all_positions_clears (cfg : Config) (exec : OrderExec) (reason : String)
    (st : CalState) :
    (CalendarPEWeekly.exit_all_positions cfg exec reason st).1.weekly_position = none ∧
    (CalendarPEWeekly.exit_all_positions cfg exec reason st).1.monthly_position = none := by
  simp [CalendarPEWeekly.exit_all_positions]

/-- C3: check_portfolio_risk returns true exactly when the threshold is
positive, both legs are held and the summed unrealized P&L, computed as
(weekly entry - weekly ltp) * qty + (monthly ltp - monthly entry) * qty, is
at or below minus the absolute threshold (inclusive boundary); when it
returns true both slots end empty, and in every other case (including any
call after the slots were cleared) it returns false, changes nothing and
places no orders. -/
theorem c3_portfolio_risk_boundary (cfg : Config) (weekly_ltp monthly_ltp : ℚ)
    (exec : OrderExec) (st : CalState) :
    ((CalendarPEWeekly.check_portfolio_risk cfg weekly_ltp monthly_ltp exec st).2 = true ↔
      (0 < cfg.MAX_LOSS_VALUE ∧ ∃ wp mp,
        st.weekly_position = some wp ∧ st.monthly_position = some mp ∧
        (wp.entry_price - weekly_ltp) * (cfg.ORDER_QUANTITY : ℚ) +
          (monthly_ltp - mp.entry_price) * (cfg.ORDER_QUANTITY : ℚ) ≤ -|cfg.MAX_LOSS_VALUE|)) ∧
    ((CalendarPEWeekly.check_portfolio_risk cfg weekly_ltp monthly_ltp exec st).2 = true →
      (CalendarPEWeekly.check_portfolio_risk cfg weekly_ltp monthly_ltp exec st).1.1.weekly_position = none ∧
      (CalendarPEWeekly.check_portfolio_risk cfg weekly_ltp monthly_ltp exec st).1.1.monthly_position = none) ∧
    ((CalendarPEWeekly.check_portfolio_risk cfg weekly_ltp monthly_ltp exec st).2 = false →
      (CalendarPEWeekly.check_portfolio_risk cfg weekly_ltp monthly_ltp exec st).1 = (st, [])) := by
  by_cases hmax : cfg.MAX_LOSS_VALUE ≤ 0
  · have h0 : ¬ (0 : ℚ) < cfg.MAX_LOSS_VALUE := not_lt.mpr hmax
    simp [CalendarPEWeekly.check_portfolio_risk, hmax, h0]
  · rcases hw : st.weekly_position with _ | wp
    · simp [CalendarPEWeekly.check_portfolio_risk, hmax, hw]
    · rcases hm : st.monthly_position with _ | mp
      · simp [CalendarPEWeekly.check_portfolio_risk, hmax, hw, hm]
      · by_cases hloss :
          (wp.entry_price - weekly_ltp) * (cfg.ORDER_QUANTITY : ℚ) +
            (monthly_ltp - mp.entry_price) * (cfg.ORDER_QUANTITY : ℚ) ≤ -|cfg.MAX_LOSS_VALUE|
        · have hfired : CalendarPEWeekly.check_portfolio_risk cfg weekly_ltp monthly_ltp exec st =
              (CalendarPEWeekly.exit_all_positions cfg exec "MAX_LOSS" st, true) := by
            simp only [CalendarPEWeekly.check_portfolio_risk, hw, hm, if_neg hmax, if_pos hloss]
          rw [hfired]
          refine ⟨⟨fun _ => ⟨not_le.mp hmax, wp, mp, rfl, rfl, hloss⟩, fun _ => rfl⟩,
                  fun _ => exit_all_positions_clears cfg exec "MAX_LOSS" st,
                  fun hfalse => by simp at hfalse⟩
        · have hnof : CalendarPEWeekly.check_portfolio_risk cfg weekly_ltp monthly_ltp exec st =
              ((st, []), false) := by
            simp only [CalendarPEWeekly.check_portfolio_risk, hw, hm, if_neg hmax, if_neg hloss]
          rw [hnof]
          refine ⟨⟨fun h => by simp at h, ?_⟩, fun h => by simp at h, fun _ => rfl⟩
          rintro ⟨-, wp2, mp2, hw2, hm2, hl2⟩
          cases hw2
          cases hm2
          exact absurd hl2 hloss

/-- Fixture executor that rejects MONTHLY_ENTRY orders and fills everything
else at price 100. -/
def execMFail : OrderExec := fun req =>
  if req.tag = "MONTHLY_ENTRY" then ⟨"error", none⟩ else ⟨"success", some 100⟩

/-- Fixture executor that rejects every order. -/
def execFailAll : OrderExec := fun _ => ⟨"rejected", none⟩

/-- Fixture executor that fills every order at price 90. -/
def execOK : OrderExec := fun _ => ⟨"success", some 90⟩

/-- Fixture weekly chain: one put at strike 50. -/
def wchainC1 : List Contract :=
  [⟨50, 15/100, 1/52, "2026-01-06", "W50PE", 7, "p", none⟩]

/-- Fixture monthly chain: one put at strike 52. -/
def mchainC1 : List Contract :=
  [⟨52, 15/100, 5/52, "2026-02-03", "M52PE", 9, "p", none⟩]

/-- The weekly leg the selector returns on the fixture weekly chain. -/
def wlC1 : Contract :=
  ⟨50, 15/100, 1/52, "2026-01-06", "W50PE", 7, "p", some (1/2)⟩

/-- The monthly leg the selector returns on the fixture monthly chain. -/
def mlC1 : Contract :=
  ⟨52, 15/100, 5/52, "2026-02-03", "M52PE", 9, "p", some (13/25)⟩

/-- Fixture empty calendar state. -/
def stEmptyC : CalState := ⟨none, none, []⟩

/-- Fixture held weekly position. -/
def wpC : Position :=
  ⟨"weekly_sell", 50, 1/52, 15/100, 6/10, 21000, "W50PE", 100, "p", "2026-01-06"⟩

/-- Fixture held monthly position. -/
def mpC : Position :=
  ⟨"monthly_buy", 52, 5/52, 15/100, 6/10, 21000, "M52PE", 120, "p", "2026-02-03"⟩

/-- Fixture calendar state holding both legs. -/
def stBothC : CalState := ⟨some wpC, some mpC, []⟩

/-- Witness for C1: on the fixture chains with an executor that fills the
weekly sell and rejects the monthly buy, entry ends with both slots empty,
exactly one closing trade with P&L (100 - 100) * 75 = 0 after the opening
trade, and the compensating EMERGENCY_EXIT buy as the third order; with an
empty monthly chain no order is placed at all. -/
theorem c1_two_leg_entry_all_or_nothing_witness :
    (CalendarPEWeekly.enter_strategy dfnW (7/100) config 21000 wchainC1 mchainC1 execMFail stEmptyC).1.weekly_position = none ∧
    (CalendarPEWeekly.enter_strategy dfnW (7/100) config 21000 wchainC1 mchainC1 execMFail stEmptyC).1.monthly_position = none ∧
    (CalendarPEWeekly.enter_strategy dfnW (7/100) config 21000 wchainC1 mchainC1 execMFail stEmptyC).1.journal =
      [⟨"W50PE", "SELL", 75, 100, "WEEKLY_ENTRY", "2026-01-06", none⟩,
       ⟨"W50PE", "BUY", 75, 100, "EMERGENCY_EXIT", "2026-01-06", some 0⟩] ∧
    (CalendarPEWeekly.enter_strategy dfnW (7/100) config 21000 wchainC1 mchainC1 execMFail stEmptyC).2 =
      [⟨"W50PE", 75, "SELL", "WEEKLY_ENTRY", "2026-01-06"⟩,
       ⟨"M52PE", 75, "BUY", "MONTHLY_ENTRY", "2026-02-03"⟩,
       ⟨"W50PE", 75, "BUY", "EMERGENCY_EXIT", "2026-01-06"⟩] ∧
    CalendarPEWeekly.enter_strategy dfnW (7/100) config 21000 wchainC1 [] execMFail stEmptyC =
      (stEmptyC, []) := by
  have h := (c1_two_leg_entry_all_or_nothing dfnW (7/100) config 21000 wchainC1 mchainC1
      execMFail stEmptyC).2 wlC1 mlC1
    (by norm_num [CalendarPEWeekly.select_strike_by_delta, selectLoop, cDiff, cDelta, cCopy,
      dfnW, wchainC1, wlC1, config, abs_of_nonneg, abs_of_nonpos])
    (by norm_num [CalendarPEWeekly.select_strike_by_delta, selectLoop, cDiff, cDelta, cCopy,
      dfnW, mchainC1, mlC1, config, abs_of_nonneg, abs_of_nonpos])
    (by simp [execMFail, wlC1, config])
    (by simp [execMFail, mlC1, config])
  have habort := (c1_two_leg_entry_all_or_nothing dfnW (7/100) config 21000 wchainC1 []
      execMFail stEmptyC).1
    (Or.inr (by simp [CalendarPEWeekly.select_strike_by_delta, selectLoop]))
  rw [h, habort]
  refine ⟨rfl, rfl, ?_, ?_, ?_⟩
  · simp [execMFail, wlC1, config, stEmptyC]
  · simp [wlC1, mlC1, config]
  · simp [stEmptyC]

/-- Witness for C2: with an executor rejecting everything and both legs
held, the weekly and monthly rolls each issue only the exit order and leave
the state untouched, and with an empty chain no order is issued at all. -/
theorem c2_roll_preserves_old_leg_witness :
    CalendarPEWeekly.adjust_weekly_leg dfnW (7/100) config 21000 [] execFailAll stBothC =
      (stBothC, []) ∧
    CalendarPEWeekly.adjust_weekly_leg dfnW (7/100) config 21000 wchainC1 execFailAll stBothC =
      (stBothC, [⟨"W50PE", 75, "BUY", "WEEKLY_EXIT_ADJ", "2026-01-06"⟩]) ∧
    CalendarPEWeekly.adjust_monthly_leg dfnW (7/100) config 21000 [] (7/20) execFailAll stBothC =
      (stBothC, []) ∧
    CalendarPEWeekly.adjust_monthly_leg dfnW (7/100) config 21000 mchainC1 (7/20) execFailAll stBothC =
      (stBothC, [⟨"M52PE", 75, "SELL", "MONTHLY_EXIT_ADJ", "2026-02-03"⟩]) := by
  have hc := c2_roll_preserves_old_leg dfnW (7/100) config 21000 wchainC1 execFailAll stBothC
  have hc0 := c2_roll_preserves_old_leg dfnW (7/100) config 21000 [] execFailAll stBothC
  have hcm := c2_roll_preserves_old_leg dfnW (7/100) config 21000 mchainC1 execFailAll stBothC
  refine ⟨hc0.1.1 (by simp [CalendarPEWeekly.select_strike_by_delta, selectLoop]), ?_, ?_, ?_⟩
  · have := hc.1.2 wlC1 wpC
      (by norm_num [CalendarPEWeekly.select_strike_by_delta, selectLoop, cDiff, cDelta, cCopy,
        dfnW, wchainC1, wlC1, config, abs_of_nonneg, abs_of_nonpos])
      (by simp [stBothC])
      (by simp [execFailAll])
    simpa [wpC, config, stBothC] using this
  · exact (hc0.2 (7/20)).1 (by simp [CalendarPEWeekly.select_strike_by_delta, selectLoop])
  · have := (hcm.2 (7/20)).2
      ⟨52, 15/100, 5/52, "2026-02-03", "M52PE", 9, "p", some (13/25)⟩ mpC
      (by norm_num [CalendarPEWeekly.select_strike_by_delta, selectLoop, cDiff, cDelta, cCopy,
        dfnW, mchainC1, config, abs_of_nonneg, abs_of_nonpos])
      (by simp [stBothC])
      (by simp [execFailAll])
    simpa [mpC, config, stBothC] using this

/-- Fixture calendar state with both slots already cleared. -/
def stClearedC : CalState := ⟨none, none, [⟨"W50PE", "BUY", 75, 90, "EXIT_MAX_LOSS", "2026-01-06", some 750⟩]⟩

/-- Witness for C3: at weekly ltp 300 the summed P&L is exactly -15000, the
inclusive boundary, so the risk check fires and clears both slots; on the
already-cleared state it returns false and changes nothing. -/
theorem c3_portfolio_risk_boundary_witness :
    (CalendarPEWeekly.check_portfolio_risk config 300 120 execOK stBothC).2 = true ∧
    (CalendarPEWeekly.check_portfolio_risk config 300 120 execOK stBothC).1.1.weekly_position = none ∧
    (CalendarPEWeekly.check_portfolio_risk config 300 120 execOK stBothC).1.1.monthly_position = none ∧
    (CalendarPEWeekly.check_portfolio_risk config 300 120 execOK stClearedC).2 = false ∧
    (CalendarPEWeekly.check_portfolio_risk config 300 120 execOK stClearedC).1 = (stClearedC, []) := by
  have hb := c3_portfolio_risk_boundary config 300 120 execOK stBothC
  have hcl := c3_portfolio_risk_boundary config 300 120 execOK stClearedC
  have hfire : (CalendarPEWeekly.check_portfolio_risk config 300 120 execOK stBothC).2 = true :=
    hb.1.mpr ⟨by norm_num [config], wpC, mpC, rfl, rfl, by norm_num [config, wpC, mpC]⟩
  have hnof : (CalendarPEWeekly.check_portfolio_risk config 300 120 execOK stClearedC).2 = false := by
    cases hval : (CalendarPEWeekly.check_portfolio_risk config 300 120 execOK stClearedC).2 with
    | true =>
      obtain ⟨-, wp2, mp2, hw2, -, -⟩ := hcl.1.mp hval
      exact absurd hw2 (by simp [stClearedC])
    | false => rfl
  exact ⟨hfire, (hb.2.1 hfire).1, (hb.2.1 hfire).2, hnof, hcl.2.2 hnof⟩

/-- C9: the tolerance argument of select_strike_by_delta has no effect on
the result, and whenever the chain contains at least one contract of the
requested type the selector returns a contract, however poor the best match
is; a selection failure can only come from a chain with no contract of the
requested type. -/
theorem c9_tolerance_never_used (dfn : DeltaFn) (rate spot target tol1 tol2 : ℚ)
    (t : String) (chain : List Contract) :
    CalendarPEWeekly.select_strike_by_delta dfn rate spot chain target t tol1 =
      CalendarPEWeekly.select_strike_by_delta dfn rate spot chain target t tol2 ∧
    ((∃ c ∈ chain, c.type = t) →
      ∃ r, CalendarPEWeekly.select_strike_by_delta dfn rate spot chain target t tol1 = some r) := by
  refine ⟨rfl, fun ⟨c, hc, htc⟩ => ?_⟩
  rcases selectLoop_char dfn rate spot target t chain with
    ⟨hnone, hall⟩ | ⟨pre, c2, post, hchain, htc2, heq, hstrict, hglobal⟩
  · exact absurd htc (hall c hc)
  · exact ⟨cCopy dfn rate spot t c2, by simp [CalendarPEWeekly.select_strike_by_delta, heq]⟩

/-- Witness for C9: on the fixture chain (target far from every candidate,
best distance 61/20) the selector still returns a contract, for two
different tolerances. -/
theorem c9_tolerance_never_used_witness :
    CalendarPEWeekly.select_strike_by_delta dfnW (7/100) 21000 chainW (7/2) "p" (1/10) =
      CalendarPEWeekly.select_strike_by_delta dfnW (7/100) 21000 chainW (7/2) "p" (9999/10) ∧
    ∃ r, CalendarPEWeekly.select_strike_by_delta dfnW (7/100) 21000 chainW (7/2) "p" (1/10) = some r :=
  ⟨(c9_tolerance_never_used dfnW (7/100) 21000 (7/2) (1/10) (9999/10) "p" chainW).1,
   (c9_tolerance_never_used dfnW (7/100) 21000 (7/2) (1/10) (9999/10) "p" chainW).2
     (by exact ⟨⟨48, 15/100, 1/52, "2026-01-06", "NSE_OPT|48PE", 120, "p", none⟩,
        by simp [chainW], rfl⟩)⟩

/-- Helper: the weekly roll entry never touches the monthly slot. -/
lemma weekly_roll_entry_monthly (cfg : Config) (spot : ℚ) (nl : Contract)
    (exec : OrderExec) (st : CalState) :
    (CalendarPEWeekly.weekly_roll_entry cfg spot nl exec st).1.monthly_position =
      st.monthly_position := by
  simp only [CalendarPEWeekly.weekly_roll_entry]
  split_ifs <;> rfl

/-- Helper: the weekly roll never touches the monthly slot. -/
lemma adjust_weekly_leg_monthly (dfn : DeltaFn) (rate : ℚ) (cfg : Config)
    (spot : ℚ) (chain : List Contract) (exec : OrderExec) (st : CalState) :
    (CalendarPEWeekly.adjust_weekly_leg dfn rate cfg spot chain exec st).1.monthly_position =
      st.monthly_position := by
  unfold CalendarPEWeekly.adjust_weekly_leg
  split
  · rfl
  · split
    · dsimp only
      split_ifs
      · rw [weekly_roll_entry_monthly]
      · rfl
    · rw [weekly_roll_entry_monthly]

/-- C8: roll triggers are two-sided with direction-dependent targets. With
both legs held and the config.py constants, check_adjustments fires the
weekly roll exactly when the stored delta is at or above the high trigger
(0.80) or at or below the low trigger (0.10); the monthly leg then rolls on
its own two-sided test (0.90 / 0.10), targeting the at-the-money delta
after the high trigger and the further out-of-the-money delta after the low
trigger; the returned flag records whether any trigger fired. The config
constants are pinned to the values the claim names (0.80, 0.10, 0.90, 0.10,
0.50, 0.35). -/
theorem c8_roll_triggers_two_sided (dfn : DeltaFn) (rate spot : ℚ)
    (wchain mchain : List Contract) (exec : OrderExec) (st : CalState)
    (wp mp : Position)
    (hw : st.weekly_position = some wp) (hm : st.monthly_position = some mp) :
    (CalendarPEWeekly.check_adjustments dfn rate config spot wchain mchain exec st =
      (let w : CalState × List OrderReq :=
         if wp.delta ≥ config.WEEKLY_ADJ_TRIGGER_DELTA ∨
            wp.delta ≤ config.WEEKLY_ADJ_TRIGGER_DELTA_LOW
         then CalendarPEWeekly.adjust_weekly_leg dfn rate config spot wchain exec st
         else (st, []);
       let m : CalState × List OrderReq :=
         if mp.delta ≥ config.MONTHLY_ADJ_TRIGGER_DELTA
         then CalendarPEWeekly.adjust_monthly_leg dfn rate config spot mchain
           config.MONTHLY_ROLL_TARGET_DELTA_FALL exec w.1
         else if mp.delta ≤ config.MONTHLY_ADJ_TRIGGER_DELTA_LOW
         then CalendarPEWeekly.adjust_monthly_leg dfn rate config spot mchain
           config.MONTHLY_ROLL_TARGET_DELTA_RISE exec w.1
         else (w.1, []);
       ((m.1, w.2 ++ m.2),
        (decide (wp.delta ≥ config.WEEKLY_ADJ_TRIGGER_DELTA) ||
         decide (wp.delta ≤ config.WEEKLY_ADJ_TRIGGER_DELTA_LOW)) ||
        (decide (mp.delta ≥ config.MONTHLY_ADJ_TRIGGER_DELTA) ||
         decide (mp.delta ≤ config.MONTHLY_ADJ_TRIGGER_DELTA_LOW))))) ∧
    config.WEEKLY_ADJ_TRIGGER_DELTA = 4/5 ∧
    config.WEEKLY_ADJ_TRIGGER_DELTA_LOW = 1/10 ∧
    config.MONTHLY_ADJ_TRIGGER_DELTA = 9/10 ∧
    config.MONTHLY_ADJ_TRIGGER_DELTA_LOW = 1/10 ∧
    config.MONTHLY_ROLL_TARGET_DELTA_FALL = 1/2 ∧
    config.MONTHLY_ROLL_TARGET_DELTA_RISE = 7/20 := by
  refine ⟨?_, rfl, rfl, rfl, rfl, rfl, rfl⟩
  have hpm : (CalendarPEWeekly.adjust_weekly_leg dfn rate config spot wchain exec st).1.monthly_position =
      some mp := by rw [adjust_weekly_leg_monthly, hm]
  by_cases h1 : wp.delta ≥ config.WEEKLY_ADJ_TRIGGER_DELTA <;>
    by_cases h2 : wp.delta ≤ config.WEEKLY_ADJ_TRIGGER_DELTA_LOW <;>
    by_cases h3 : mp.delta ≥ config.MONTHLY_ADJ_TRIGGER_DELTA <;>
    by_cases h4 : mp.delta ≤ config.MONTHLY_ADJ_TRIGGER_DELTA_LOW <;>
    simp only [CalendarPEWeekly.check_adjustments, hw, hm, hpm, h1, h2, h3, h4,
      if_true, if_false, List.append_nil, List.nil_append, decide_eq_true_eq,
      ite_true, ite_false, eq_self_iff_true, not_true, not_false_iff,
      decide_True, decide_False, or_true, true_or, or_false, false_or,
      Bool.or_true, Bool.true_or, Bool.or_false, Bool.false_or] <;>
    simp_all

/-- Fixture monthly position whose stored delta 1/20 breaches the low
monthly trigger. -/
def mpLowC : Position :=
  ⟨"monthly_buy", 52, 5/52, 15/100, 1/20, 21000, "M52PE", 120, "p", "2026-02-03"⟩

/-- Fixture state: weekly delta 6/10 (no trigger), monthly delta 1/20 (low
trigger). -/
def stTrigC : CalState := ⟨some wpC, some mpLowC, []⟩

/-- Witness for C8: with weekly and monthly deltas at 6/10 nothing fires;
with the monthly delta at 1/20 the low-side monthly roll fires (flag true)
targeting 7/20, and on an empty monthly chain it aborts with no orders. -/
theorem c8_roll_triggers_two_sided_witness :
    CalendarPEWeekly.check_adjustments dfnW (7/100) config 21000 wchainC1 mchainC1 execOK stBothC =
      ((stBothC, []), false) ∧
    CalendarPEWeekly.check_adjustments dfnW (7/100) config 21000 wchainC1 [] execOK stTrigC =
      ((stTrigC, []), true) := by
  have h1 := (c8_roll_triggers_two_sided dfnW (7/100) 21000 wchainC1 mchainC1 execOK stBothC
    wpC mpC rfl rfl).1
  have h2 := (c8_roll_triggers_two_sided dfnW (7/100) 21000 wchainC1 [] execOK stTrigC
    wpC mpLowC rfl rfl).1
  constructor
  · rw [h1]
    norm_num [wpC, mpC, config]
  · rw [h2]
    norm_num [wpC, mpLowC, config, CalendarPEWeekly.adjust_monthly_leg,
      CalendarPEWeekly.select_strike_by_delta, selectLoop]

/-- C5: iron-fly entry is atomic-checked: when a put at any of the three
butterfly strikes (spot rounded to the nearest 50, offset by the three
config offsets) is missing from the chain, enter_strategy changes nothing
and places zero orders; in particular an empty positions list stays empty.
The config offsets are pinned to the values the claim names (-50, -250,
-450). -/
theorem c5_ironfly_atomic_entry (spot : ℚ) (chain : List Contract)
    (exec : OrderExec) (st : IFState)
    (h : chain.find? (fun x => x.strike == ((pyRound (spot / 50) : ℤ) : ℚ) * 50 +
           config.IRONFLY_LEG1_OFFSET && x.type == "p") = none ∨
         chain.find? (fun x => x.strike == ((pyRound (spot / 50) : ℤ) : ℚ) * 50 +
           config.IRONFLY_LEG2_OFFSET && x.type == "p") = none ∨
         chain.find? (fun x => x.strike == ((pyRound (spot / 50) : ℤ) : ℚ) * 50 +
           config.IRONFLY_LEG3_OFFSET && x.type == "p") = none) :
    WeeklyIronfly.enter_strategy config spot chain exec st = (st, []) ∧
    (st.positions = [] → (WeeklyIronfly.enter_strategy config spot chain exec st).1.positions = []) ∧
    config.IRONFLY_LEG1_OFFSET = -50 ∧ config.IRONFLY_LEG2_OFFSET = -250 ∧
    config.IRONFLY_LEG3_OFFSET = -450 := by
  have h1 : WeeklyIronfly.enter_strategy config spot chain exec st = (st, []) := by
    unfold WeeklyIronfly.enter_strategy
    dsimp only
    split
    · rcases h with h | h | h <;> simp_all
    · rfl
  exact ⟨h1, fun hp => by rw [h1]; exact hp, rfl, rfl, rfl⟩

/-- Fixture chain for C5: puts at 25850 and 25650 only; the hedge strike
25450 is missing. -/
def chainC5 : List Contract :=
  [⟨25850, 15/100, 1/52, "2026-01-13", "IF25850PE", 50, "p", none⟩,
   ⟨25650, 15/100, 1/52, "2026-01-13", "IF25650PE", 20, "p", none⟩]

/-- Fixture empty iron-fly state. -/
def ifStEmpty : IFState := ⟨[], false, []⟩

/-- Witness for C5: at spot 25900 the butterfly needs puts at 25850, 25650
and 25450; with 25450 missing from the chain, zero orders are placed and
the positions list stays empty. -/
theorem c5_ironfly_atomic_entry_witness :
    WeeklyIronfly.enter_strategy config 25900 chainC5 execOK ifStEmpty = (ifStEmpty, []) ∧
    (WeeklyIronfly.enter_strategy config 25900 chainC5 execOK ifStEmpty).1.positions = [] := by
  have hfloor : ((pyRound ((25900 : ℚ) / 50) : ℤ) : ℚ) = 518 := by
    norm_num [pyRound]
  have h := c5_ironfly_atomic_entry 25900 chainC5 execOK ifStEmpty
    (Or.inr (Or.inr (List.find?_eq_none.mpr (by
      intro x hx
      simp only [chainC5, List.mem_cons, List.not_mem_nil, or_false] at hx
      rcases hx with rfl | rfl <;>
        simp [hfloor, config, beq_iff_eq] <;> norm_num))))
  exact ⟨h.1, h.2.1 rfl⟩

/-- The configured rollover weekday from config.py (0 = Monday). -/
def ROLLOVER_WEEKDAY : ℕ := 0

/-- Monday rollover block of CalendarPEWeekly.update (the step before the
entry logic): on the rollover weekday, when not yet rolled today and the
held weekly leg is within 1.5 days of expiry, a MONDAY_CLOSE buy order is
placed, the weekly slot is cleared and the rollover date recorded; the
trade journal is never written. The source passes no expiry keyword on this
order, so "N/A" stands for the absent argument. Returns ((state,
last_rollover_date), orders). -/
def CalendarPEWeekly.monday_rollover (cfg : Config) (weekday : ℕ)
    (today_str : String) (last_rollover_date : Option String)
    (exec : OrderExec) (st : CalState) :
    (CalState × Option String) × List OrderReq :=
  match st.weekly_position with
  | some wp =>
    if weekday = ROLLOVER_WEEKDAY then
      if last_rollover_date ≠ some today_str then
        if wp.expiry ≤ (3/2) / 365 then
          let req : OrderReq :=
            ⟨wp.instrument_key, cfg.ORDER_QUANTITY, "BUY", "MONDAY_CLOSE", "N/A"⟩
          let _ := exec req
          (({ st with weekly_position := none }, some today_str), [req])
        else ((st, last_rollover_date), [])
      else ((st, last_rollover_date), [])
    else ((st, last_rollover_date), [])
  | none => ((st, last_rollover_date), [])

/-- C6 (amended): every leg close in the calendar strategy that goes
through exit_all_positions (any mix of per-leg fill outcomes, the risk exit
included), its delta-roll exits, or its entry emergency flatten appends the
realized trade to the journal exactly when that leg's exit order fills,
before the slot is cleared or re-filled; the exceptions are
WeeklyIronfly.exit_all_positions and the calendar Monday-rollover close,
which clear positions without ever writing to the trade journal. -/
theorem c6_exit_paths_logging (dfn : DeltaFn) (rate : ℚ) (cfg : Config)
    (spot : ℚ) (wchain mchain : List Contract) (exec : OrderExec)
    (reason : String) (st : CalState) (ifst : IFState) :
    -- 1. exit_all_positions clears both slots and journals, per leg,
    -- exactly the closes whose orders fill
    ((CalendarPEWeekly.exit_all_positions cfg exec reason st).1.weekly_position = none ∧
     (CalendarPEWeekly.exit_all_positions cfg exec reason st).1.monthly_position = none ∧
     (CalendarPEWeekly.exit_all_positions cfg exec reason st).1.journal =
       st.journal ++
         (st.weekly_position.elim []
           (fun wp =>
             if (exec ⟨wp.instrument_key, cfg.ORDER_QUANTITY, "BUY", "EXIT_" ++ reason, wp.expiry_dt⟩).status = "success"
             then [⟨wp.instrument_key, "BUY", cfg.ORDER_QUANTITY,
                    (exec ⟨wp.instrument_key, cfg.ORDER_QUANTITY, "BUY", "EXIT_" ++ reason, wp.expiry_dt⟩).avg_price.getD 0,
                    "EXIT_" ++ reason, wp.expiry_dt,
                    some ((wp.entry_price -
                      (exec ⟨wp.instrument_key, cfg.ORDER_QUANTITY, "BUY", "EXIT_" ++ reason, wp.expiry_dt⟩).avg_price.getD 0) *
                      (cfg.ORDER_QUANTITY : ℚ))⟩]
             else [])) ++
         (st.monthly_position.elim []
           (fun mp =>
             if (exec ⟨mp.instrument_key, cfg.ORDER_QUANTITY, "SELL", "EXIT_" ++ reason, mp.expiry_dt⟩).status = "success"
             then [⟨mp.instrument_key, "SELL", cfg.ORDER_QUANTITY,
                    (exec ⟨mp.instrument_key, cfg.ORDER_QUANTITY, "SELL", "EXIT_" ++ reason, mp.expiry_dt⟩).avg_price.getD 0,
                    "EXIT_" ++ reason, mp.expiry_dt,
                    some (((exec ⟨mp.instrument_key, cfg.ORDER_QUANTITY, "SELL", "EXIT_" ++ reason, mp.expiry_dt⟩).avg_price.getD 0 -
                      mp.entry_price) * (cfg.ORDER_QUANTITY : ℚ))⟩]
             else []))) ∧
    -- 2. weekly roll: a filled WEEKLY_EXIT_ADJ is journaled with its P&L
    -- while the slot ends cleared or re-filled by the roll entry
    (∀ nl wp,
      CalendarPEWeekly.select_strike_by_delta dfn rate spot wchain
        cfg.WEEKLY_ROLL_TARGET_DELTA "p" (1/10) = some nl →
      st.weekly_position = some wp →
      (exec ⟨wp.instrument_key, cfg.ORDER_QUANTITY, "BUY", "WEEKLY_EXIT_ADJ", wp.expiry_dt⟩).status = "success" →
      (CalendarPEWeekly.adjust_weekly_leg dfn rate cfg spot wchain exec st).1.journal =
        st.journal ++
          ⟨wp.instrument_key, "BUY", cfg.ORDER_QUANTITY,
            (exec ⟨wp.instrument_key, cfg.ORDER_QUANTITY, "BUY", "WEEKLY_EXIT_ADJ", wp.expiry_dt⟩).avg_price.getD 0,
            "WEEKLY_EXIT_ADJ", wp.expiry_dt,
            some ((wp.entry_price -
              (exec ⟨wp.instrument_key, cfg.ORDER_QUANTITY, "BUY", "WEEKLY_EXIT_ADJ", wp.expiry_dt⟩).avg_price.getD 0) *
              (cfg.ORDER_QUANTITY : ℚ))⟩ ::
          (if (exec ⟨nl.instrument_key, cfg.ORDER_QUANTITY, "SELL", "WEEKLY_ROLL_ENTRY", nl.expiry_dt⟩).status = "success"
           then [⟨nl.instrument_key, "SELL", cfg.ORDER_QUANTITY,
                  (exec ⟨nl.instrument_key, cfg.ORDER_QUANTITY, "SELL", "WEEKLY_ROLL_ENTRY", nl.expiry_dt⟩).avg_price.getD nl.ltp,
                  "WEEKLY_ROLL_ENTRY", nl.expiry_dt, none⟩]
           else []) ∧
      (CalendarPEWeekly.adjust_weekly_leg dfn rate cfg spot wchain exec st).1.weekly_position =
        (if (exec ⟨nl.instrument_key, cfg.ORDER_QUANTITY, "SELL", "WEEKLY_ROLL_ENTRY", nl.expiry_dt⟩).status = "success"
         then some (mkWeeklyPosition spot nl
           ((exec ⟨nl.instrument_key, cfg.ORDER_QUANTITY, "SELL", "WEEKLY_ROLL_ENTRY", nl.expiry_dt⟩).avg_price.getD nl.ltp))
         else none)) ∧
    -- 3. monthly roll: same discipline on the long side
    (∀ target_delta nl mp,
      CalendarPEWeekly.select_strike_by_delta dfn rate spot mchain
        target_delta "p" (1/10) = some nl →
      st.monthly_position = some mp →
      (exec ⟨mp.instrument_key, cfg.ORDER_QUANTITY, "SELL", "MONTHLY_EXIT_ADJ", mp.expiry_dt⟩).status = "success" →
      (CalendarPEWeekly.adjust_monthly_leg dfn rate cfg spot mchain target_delta exec st).1.journal =
        st.journal ++
          ⟨mp.instrument_key, "SELL", cfg.ORDER_QUANTITY,
            (exec ⟨mp.instrument_key, cfg.ORDER_QUANTITY, "SELL", "MONTHLY_EXIT_ADJ", mp.expiry_dt⟩).avg_price.getD 0,
            "MONTHLY_EXIT_ADJ", mp.expiry_dt,
            some (((exec ⟨mp.instrument_key, cfg.ORDER_QUANTITY, "SELL", "MONTHLY_EXIT_ADJ", mp.expiry_dt⟩).avg_price.getD 0 -
              mp.entry_price) * (cfg.ORDER_QUANTITY : ℚ))⟩ ::
          (if (exec ⟨nl.instrument_key, cfg.ORDER_QUANTITY, "BUY", "MONTHLY_ROLL_ENTRY", nl.expiry_dt⟩).status = "success"
           then [⟨nl.instrument_key, "BUY", cfg.ORDER_QUANTITY,
                  (exec ⟨nl.instrument_key, cfg.ORDER_QUANTITY, "BUY", "MONTHLY_ROLL_ENTRY", nl.expiry_dt⟩).avg_price.getD nl.ltp,
                  "MONTHLY_ROLL_ENTRY", nl.expiry_dt, none⟩]
           else []) ∧
      (CalendarPEWeekly.adjust_monthly_leg dfn rate cfg spot mchain target_delta exec st).1.monthly_position =
        (if (exec ⟨nl.instrument_key, cfg.ORDER_QUANTITY, "BUY", "MONTHLY_ROLL_ENTRY", nl.expiry_dt⟩).status = "success"
         then some (mkMonthlyPosition spot nl
           ((exec ⟨nl.instrument_key, cfg.ORDER_QUANTITY, "BUY", "MONTHLY_ROLL_ENTRY", nl.expiry_dt⟩).avg_price.getD nl.ltp))
         else none)) ∧
    -- 4. the entry emergency flatten journals the compensating close with
    -- its P&L before the slot is cleared
    (∀ wl ml,
      CalendarPEWeekly.select_strike_by_delta dfn rate spot wchain
        cfg.ENTRY_WEEKLY_DELTA_TARGET "p" (1/10) = some wl →
      CalendarPEWeekly.select_strike_by_delta dfn rate spot mchain
        cfg.ENTRY_MONTHLY_DELTA_TARGET "p" (1/10) = some ml →
      (exec ⟨wl.instrument_key, cfg.ORDER_QUANTITY, "SELL", "WEEKLY_ENTRY", wl.expiry_dt⟩).status = "success" →
      (exec ⟨ml.instrument_key, cfg.ORDER_QUANTITY, "BUY", "MONTHLY_ENTRY", ml.expiry_dt⟩).status ≠ "success" →
      (CalendarPEWeekly.enter_strategy dfn rate cfg spot wchain mchain exec st).1.journal =
        st.journal ++
          [⟨wl.instrument_key, "SELL", cfg.ORDER_QUANTITY,
             (exec ⟨wl.instrument_key, cfg.ORDER_QUANTITY, "SELL", "WEEKLY_ENTRY", wl.expiry_dt⟩).avg_price.getD wl.ltp,
             "WEEKLY_ENTRY", wl.expiry_dt, none⟩,
           ⟨wl.instrument_key, "BUY", cfg.ORDER_QUANTITY,
             (exec ⟨wl.instrument_key, cfg.ORDER_QUANTITY, "BUY", "EMERGENCY_EXIT", wl.expiry_dt⟩).avg_price.getD 0,
             "EMERGENCY_EXIT", wl.expiry_dt,
             some (((exec ⟨wl.instrument_key, cfg.ORDER_QUANTITY, "SELL", "WEEKLY_ENTRY", wl.expiry_dt⟩).avg_price.getD wl.ltp -
               (exec ⟨wl.instrument_key, cfg.ORDER_QUANTITY, "BUY", "EMERGENCY_EXIT", wl.expiry_dt⟩).avg_price.getD 0) *
               (cfg.ORDER_QUANTITY : ℚ))⟩] ∧
      (CalendarPEWeekly.enter_strategy dfn rate cfg spot wchain mchain exec st).1.weekly_position = none ∧
      (CalendarPEWeekly.enter_strategy dfn rate cfg spot wchain mchain exec st).1.monthly_position = none) ∧
    -- 5. the iron-fly bulk exit never journals, whatever the executor says
    ((WeeklyIronfly.exit_all_positions exec reason ifst).1.journal = ifst.journal ∧
     (WeeklyIronfly.exit_all_positions exec reason ifst).1.positions = [] ∧
     (WeeklyIronfly.exit_all_positions exec reason ifst).1.is_adjusted = false) ∧
    -- 6. the Monday rollover never journals, for every input
    (∀ weekday today_str last,
      (CalendarPEWeekly.monday_rollover cfg weekday today_str last exec st).1.1.journal = st.journal) := by
  refine ⟨⟨?_, ?_, ?_⟩, ?_, ?_, ?_, ⟨?_, ?_, ?_⟩, ?_⟩
  · simp [CalendarPEWeekly.exit_all_positions]
  · simp [CalendarPEWeekly.exit_all_positions]
  · rcases hw : st.weekly_position with _ | wp <;> rcases hm : st.monthly_position with _ | mp <;>
      simp only [CalendarPEWeekly.exit_all_positions, hw, hm, Option.elim] <;>
      (try split_ifs) <;> simp
  · intro nl wp hsel hwp hex
    simp only [CalendarPEWeekly.adjust_weekly_leg, hsel, hwp, hex,
      CalendarPEWeekly.weekly_roll_entry]
    split_ifs <;> simp_all
  · intro target_delta nl mp hsel hmp hex
    simp only [CalendarPEWeekly.adjust_monthly_leg, hsel, hmp, hex,
      CalendarPEWeekly.monthly_roll_entry]
    split_ifs <;> simp_all
  · intro wl ml hwl hml hws hmf
    simp only [CalendarPEWeekly.enter_strategy, hwl, hml, hws, hmf]
    simp [hws, hmf]
  · simp [WeeklyIronfly.exit_all_positions]
  · simp [WeeklyIronfly.exit_all_positions]
  · simp [WeeklyIronfly.exit_all_positions]
  · intro weekday today_str last
    unfold CalendarPEWeekly.monday_rollover
    rcases hw : st.weekly_position with _ | wp <;> simp only [hw] <;> split_ifs <;> rfl

/-- Fixture iron-fly position, tagged IF_LEG1. -/
def ifPosC : IFPosition := ⟨"IF25850PE", 75, "BUY", 100, 25850, "PE", "IF_LEG1", "2026-01-13"⟩

/-- Fixture iron-fly state holding one leg, not yet adjusted. -/
def ifStC : IFState := ⟨[ifPosC], false, []⟩

/-- Fixture weekly position one day from expiry, eligible for the Monday
rollover. -/
def wpNearExp : Position :=
  ⟨"weekly_sell", 50, 1/365, 15/100, 1/2, 21000, "W50PE", 100, "p", "2026-01-06"⟩

/-- Fixture state holding only the near-expiry weekly leg. -/
def stMonday : CalState := ⟨some wpNearExp, none, []⟩

/-- Counterexample for C6, on both violating paths. First,
WeeklyIronfly.exit_all_positions with an executor that reports success
places the reverse-side exit order and clears the leg list yet appends
nothing to the journal. Second, the calendar Monday-rollover close places a
MONDAY_CLOSE buy that the executor fills, clears the weekly slot, and
leaves the journal empty. In both cases a leg close whose exit order fills
leaves no realized-trade entry. -/
theorem c6_counterexample :
    (WeeklyIronfly.exit_all_positions execOK "MANUAL" ifStC).2 =
      [⟨"IF25850PE", 75, "SELL", "MANUAL_EXIT", "2026-01-13"⟩] ∧
    (execOK ⟨"IF25850PE", 75, "SELL", "MANUAL_EXIT", "2026-01-13"⟩).status = "success" ∧
    (WeeklyIronfly.exit_all_positions execOK "MANUAL" ifStC).1.positions = [] ∧
    (WeeklyIronfly.exit_all_positions execOK "MANUAL" ifStC).1.journal = [] ∧
    CalendarPEWeekly.monday_rollover config 0 "2026-01-05" none execOK stMonday =
      ((⟨none, none, []⟩, some "2026-01-05"), [⟨"W50PE", 75, "BUY", "MONDAY_CLOSE", "N/A"⟩]) ∧
    (execOK ⟨"W50PE", 75, "BUY", "MONDAY_CLOSE", "N/A"⟩).status = "success" := by
  refine ⟨?_, ?_, ?_, ?_, ?_, ?_⟩
  · simp [WeeklyIronfly.exit_all_positions, ifStC, ifPosC]
  · simp [execOK]
  · simp [WeeklyIronfly.exit_all_positions, ifStC]
  · simp [WeeklyIronfly.exit_all_positions, ifStC]
  · norm_num [CalendarPEWeekly.monday_rollover, stMonday, wpNearExp, ROLLOVER_WEEKDAY, config]
    simp
  · simp [execOK]

/-- Fixture executor that fills only orders on the weekly instrument. -/
def execWOnly : OrderExec := fun req =>
  if req.instrument_key = "W50PE" then ⟨"success", some 90⟩ else ⟨"rejected", none⟩

/-- Witness for the amended C6 at concrete inputs: a mixed-outcome bulk
exit journals only the filled weekly close (P&L 750) while both slots
clear; a weekly roll whose exit fills journals the close before the slot is
re-filled; and the entry emergency flatten journals the compensating close
with P&L 0. -/
theorem c6_exit_paths_logging_witness :
    (CalendarPEWeekly.exit_all_positions config execWOnly "MANUAL" stBothC).1.journal =
      [⟨"W50PE", "BUY", 75, 90, "EXIT_MANUAL", "2026-01-06", some 750⟩] ∧
    (CalendarPEWeekly.exit_all_positions config execWOnly "MANUAL" stBothC).1.weekly_position = none ∧
    (CalendarPEWeekly.exit_all_positions config execWOnly "MANUAL" stBothC).1.monthly_position = none ∧
    (CalendarPEWeekly.adjust_weekly_leg dfnW (7/100) config 21000 wchainC1 execOK stBothC).1.journal =
      [⟨"W50PE", "BUY", 75, 90, "WEEKLY_EXIT_ADJ", "2026-01-06", some 750⟩,
       ⟨"W50PE", "SELL", 75, 90, "WEEKLY_ROLL_ENTRY", "2026-01-06", none⟩] ∧
    (CalendarPEWeekly.enter_strategy dfnW (7/100) config 21000 wchainC1 mchainC1 execMFail stEmptyC).1.journal =
      [⟨"W50PE", "SELL", 75, 100, "WEEKLY_ENTRY", "2026-01-06", none⟩,
       ⟨"W50PE", "BUY", 75, 100, "EMERGENCY_EXIT", "2026-01-06", some 0⟩] := by
  have h1 := (c6_exit_paths_logging dfnW (7/100) config 21000 wchainC1 mchainC1 execWOnly
    "MANUAL" stBothC ifStC).1
  have h2 := (c6_exit_paths_logging dfnW (7/100) config 21000 wchainC1 mchainC1 execOK
    "MANUAL" stBothC ifStC).2.1 wlC1 wpC
    (by norm_num [CalendarPEWeekly.select_strike_by_delta, selectLoop, cDiff, cDelta, cCopy,
      dfnW, wchainC1, wlC1, config, abs_of_nonneg, abs_of_nonpos])
    rfl
    (by simp [execOK])
  have h4 := (c6_exit_paths_logging dfnW (7/100) config 21000 wchainC1 mchainC1 execMFail
    "MANUAL" stEmptyC ifStC).2.2.2.1 wlC1 mlC1
    (by norm_num [CalendarPEWeekly.select_strike_by_delta, selectLoop, cDiff, cDelta, cCopy,
      dfnW, wchainC1, wlC1, config, abs_of_nonneg, abs_of_nonpos])
    (by norm_num [CalendarPEWeekly.select_strike_by_delta, selectLoop, cDiff, cDelta, cCopy,
      dfnW, mchainC1, mlC1, config, abs_of_nonneg, abs_of_nonpos])
    (by simp [execMFail, wlC1, config])
    (by simp [execMFail, mlC1, config])
  refine ⟨?_, h1.1, h1.2.1, ?_, ?_⟩
  · rw [h1.2.2]
    norm_num [stBothC, wpC, mpC, execWOnly, config] <;> simp
  · rw [h2.1]
    norm_num [stBothC, wpC, wlC1, execOK, config] <;> simp
  · rw [h4.1]
    norm_num [stEmptyC, wlC1, mlC1, execMFail, config] <;> simp

/-- Helper: apply_adjustment with the reference leg and both call contracts
resolvable places exactly the two overlay orders and marks the structure
adjusted whatever the executor answers; when both orders fail the position
list is unchanged. -/
lemma apply_adjustment_core (cfg : Config) (spot : ℚ)
    (cwc nwc : List Contract) (exec : OrderExec) (st : IFState)
    (leg1 : IFPosition) (ceT ceN : Contract)
    (hnw : ¬ nwc = [])
    (hl : WeeklyIronfly.leg1_lookup st.positions = some leg1)
    (hceT : cwc.find? (fun x => x.strike == leg1.strike + cfg.IRONFLY_ADJ_INWARD_OFFSET &&
      x.type == "c") = some ceT)
    (hceN : nwc.find? (fun x => x.strike == leg1.strike + cfg.IRONFLY_ADJ_INWARD_OFFSET &&
      x.type == "c") = some ceN) :
    (WeeklyIronfly.apply_adjustment cfg spot cwc nwc exec st).1.is_adjusted = true ∧
    (WeeklyIronfly.apply_adjustment cfg spot cwc nwc exec st).2 =
      [⟨ceT.instrument_key, cfg.ORDER_QUANTITY, "SELL", "IF_ADJ_CE_SHORT", ceT.expiry_dt⟩,
       ⟨ceN.instrument_key, cfg.ORDER_QUANTITY, "BUY", "IF_ADJ_CE_LONG", ceN.expiry_dt⟩] ∧
    ((exec ⟨ceT.instrument_key, cfg.ORDER_QUANTITY, "SELL", "IF_ADJ_CE_SHORT", ceT.expiry_dt⟩).status ≠ "success" →
     (exec ⟨ceN.instrument_key, cfg.ORDER_QUANTITY, "BUY", "IF_ADJ_CE_LONG", ceN.expiry_dt⟩).status ≠ "success" →
     (WeeklyIronfly.apply_adjustment cfg spot cwc nwc exec st).1.positions = st.positions) := by
  refine ⟨?_, ?_, fun hfT hfN => ?_⟩
  · simp only [WeeklyIronfly.apply_adjustment, if_neg hnw, hl, hceT, hceN]
  · simp only [WeeklyIronfly.apply_adjustment, if_neg hnw, hl, hceT, hceN]
  · simp only [WeeklyIronfly.apply_adjustment, if_neg hnw, hl, hceT, hceN]
    simp [hfT, hfN]

/-- C10: apply_adjustment marks the structure adjusted whenever the call
contracts at the adjustment strike resolve in both chains, regardless of
whether either overlay order fills; with both orders failing the position
list is unchanged, so a structure can be flagged adjusted with zero overlay
legs open. -/
theorem c10_adjusted_flag_without_fills (cfg : Config) (spot : ℚ)
    (cwc nwc : List Contract) (exec : OrderExec) (st : IFState)
    (leg1 : IFPosition) (ceT ceN : Contract)
    (hnw : ¬ nwc = [])
    (hl : WeeklyIronfly.leg1_lookup st.positions = some leg1)
    (hceT : cwc.find? (fun x => x.strike == leg1.strike + cfg.IRONFLY_ADJ_INWARD_OFFSET &&
      x.type == "c") = some ceT)
    (hceN : nwc.find? (fun x => x.strike == leg1.strike + cfg.IRONFLY_ADJ_INWARD_OFFSET &&
      x.type == "c") = some ceN) :
    (WeeklyIronfly.apply_adjustment cfg spot cwc nwc exec st).1.is_adjusted = true ∧
    ((exec ⟨ceT.instrument_key, cfg.ORDER_QUANTITY, "SELL", "IF_ADJ_CE_SHORT", ceT.expiry_dt⟩).status ≠ "success" →
     (exec ⟨ceN.instrument_key, cfg.ORDER_QUANTITY, "BUY", "IF_ADJ_CE_LONG", ceN.expiry_dt⟩).status ≠ "success" →
     (WeeklyIronfly.apply_adjustment cfg spot cwc nwc exec st).1.positions = st.positions) := by
  obtain ⟨h1, -, h3⟩ := apply_adjustment_core cfg spot cwc nwc exec st leg1 ceT ceN hnw hl hceT hceN
  exact ⟨h1, h3⟩

/-- Fixture this-week chain for the adjustment: one call at 25950. -/
def cwcAdj : List Contract :=
  [⟨25950, 15/100, 1/52, "2026-01-13", "IF25950CE_W", 40, "c", none⟩]

/-- Fixture next-week chain for the adjustment: one call at 25950. -/
def nwcAdj : List Contract :=
  [⟨25950, 15/100, 2/52, "2026-01-20", "IF25950CE_N", 70, "c", none⟩]

/-- Witness for C10: with an executor rejecting both overlay orders, the
structure is still marked adjusted and no overlay leg is opened. -/
theorem c10_adjusted_flag_without_fills_witness :
    (WeeklyIronfly.apply_adjustment config 25900 cwcAdj nwcAdj execFailAll ifStC).1.is_adjusted = true ∧
    (WeeklyIronfly.apply_adjustment config 25900 cwcAdj nwcAdj execFailAll ifStC).1.positions = ifStC.positions := by
  have h := c10_adjusted_flag_without_fills config 25900 cwcAdj nwcAdj execFailAll ifStC
    ifPosC
    ⟨25950, 15/100, 1/52, "2026-01-13", "IF25950CE_W", 40, "c", none⟩
    ⟨25950, 15/100, 2/52, "2026-01-20", "IF25950CE_N", 70, "c", none⟩
    (by simp [nwcAdj])
    (by simp [WeeklyIronfly.leg1_lookup, ifStC, ifPosC, strContains, charInfix, List.isPrefixOf])
    (by simp [cwcAdj, ifPosC, config, beq_iff_eq]; norm_num)
    (by simp [nwcAdj, ifPosC, config, beq_iff_eq]; norm_num)
  exact ⟨h.1, h.2 (by simp [execFailAll]) (by simp [execFailAll])⟩

/-- C7: the iron-fly contingent hedge fires at most once per structure
life. With open positions and floating P&L fraction at or below the
negative stop threshold: when not yet adjusted, the monitoring stage calls
apply_adjustment (the calendar overlay, with the chains passed as in
update), which marks the structure adjusted whenever the overlay contracts
resolve, so the same trigger cannot fire again; when already adjusted, any
breach at or below the threshold (in particular any tighter, more negative
level) forces a full exit of all legs instead of a second adjustment. -/
theorem c7_hedge_fires_once (spot : ℚ) (quotes : Quotes)
    (cw_chain nw_chain : List Contract) (exec : OrderExec) (st : IFState) :
    ((¬ st.positions = []) → st.is_adjusted = false →
      WeeklyIronfly.calculate_total_pnl quotes st.positions / config.IRONFLY_CAPITAL ≤
        -config.IRONFLY_SL_PERCENT →
      WeeklyIronfly.update_pnl_monitor config spot quotes cw_chain nw_chain exec st =
        WeeklyIronfly.apply_adjustment config spot nw_chain cw_chain exec st) ∧
    (∀ leg1 ceT ceN,
      (¬ st.positions = []) → st.is_adjusted = false →
      WeeklyIronfly.calculate_total_pnl quotes st.positions / config.IRONFLY_CAPITAL ≤
        -config.IRONFLY_SL_PERCENT →
      (¬ cw_chain = []) →
      WeeklyIronfly.leg1_lookup st.positions = some leg1 →
      nw_chain.find? (fun x => x.strike == leg1.strike + config.IRONFLY_ADJ_INWARD_OFFSET &&
        x.type == "c") = some ceT →
      cw_chain.find? (fun x => x.strike == leg1.strike + config.IRONFLY_ADJ_INWARD_OFFSET &&
        x.type == "c") = some ceN →
      (WeeklyIronfly.update_pnl_monitor config spot quotes cw_chain nw_chain exec st).1.is_adjusted = true ∧
      (WeeklyIronfly.update_pnl_monitor config spot quotes cw_chain nw_chain exec st).2 =
        [⟨ceT.instrument_key, config.ORDER_QUANTITY, "SELL", "IF_ADJ_CE_SHORT", ceT.expiry_dt⟩,
         ⟨ceN.instrument_key, config.ORDER_QUANTITY, "BUY", "IF_ADJ_CE_LONG", ceN.expiry_dt⟩]) ∧
    ((¬ st.positions = []) → st.is_adjusted = true →
      WeeklyIronfly.calculate_total_pnl quotes st.positions / config.IRONFLY_CAPITAL ≤
        -config.IRONFLY_SL_PERCENT →
      WeeklyIronfly.update_pnl_monitor config spot quotes cw_chain nw_chain exec st =
        WeeklyIronfly.exit_all_positions exec "POST_ADJ_SL_HIT" st ∧
      (WeeklyIronfly.update_pnl_monitor config spot quotes cw_chain nw_chain exec st).1.positions = [] ∧
      (WeeklyIronfly.update_pnl_monitor config spot quotes cw_chain nw_chain exec st).1.is_adjusted = false) := by
  have hbranch : ∀ (hpos : ¬ st.positions = []),
      WeeklyIronfly.calculate_total_pnl quotes st.positions / config.IRONFLY_CAPITAL ≤
        -config.IRONFLY_SL_PERCENT →
      WeeklyIronfly.update_pnl_monitor config spot quotes cw_chain nw_chain exec st =
        (if !st.is_adjusted then WeeklyIronfly.apply_adjustment config spot nw_chain cw_chain exec st
         else WeeklyIronfly.exit_all_positions exec "POST_ADJ_SL_HIT" st) := by
    intro hpos hsl
    have hnt : ¬ (WeeklyIronfly.calculate_total_pnl quotes st.positions / config.IRONFLY_CAPITAL ≥
        config.IRONFLY_TARGET_PERCENT) := by
      simp only [config] at hsl ⊢
      intro hge
      linarith
    simp only [WeeklyIronfly.update_pnl_monitor, if_neg hpos, if_neg hnt, if_pos hsl]
  refine ⟨fun hpos hadj hsl => ?_, fun leg1 ceT ceN hpos hadj hsl hcw hl hceT hceN => ?_, ?_⟩
  · rw [hbranch hpos hsl, hadj]
    rfl
  · have heq : WeeklyIronfly.update_pnl_monitor config spot quotes cw_chain nw_chain exec st =
        WeeklyIronfly.apply_adjustment config spot nw_chain cw_chain exec st := by
      rw [hbranch hpos hsl, hadj]
      rfl
    obtain ⟨h1, h2, -⟩ := apply_adjustment_core config spot nw_chain cw_chain exec st
      leg1 ceT ceN hcw hl hceT hceN
    rw [heq]
    exact ⟨h1, h2⟩
  · intro hpos hadj hsl
    have heq : WeeklyIronfly.update_pnl_monitor config spot quotes cw_chain nw_chain exec st =
        WeeklyIronfly.exit_all_positions exec "POST_ADJ_SL_HIT" st := by
      rw [hbranch hpos hsl, hadj]
      rfl
    rw [heq]
    exact ⟨rfl, by simp [WeeklyIronfly.exit_all_positions],
      by simp [WeeklyIronfly.exit_all_positions]⟩

/-- Fixture quotes: everything trades at 0, putting the fixture structure
deep in loss. -/
def quotesZero : Quotes := fun _ => some 0

/-- Fixture adjusted iron-fly state. -/
def ifStAdj : IFState := ⟨[ifPosC], true, []⟩

/-- Witness for C7 on concrete states: at quotes 0 the single long leg
loses 7500, a fraction -1/24 of capital, breaching the -1/100 stop; the
unadjusted structure gets the calendar overlay applied and marked adjusted,
while the already-adjusted structure is fully exited instead. -/
theorem c7_hedge_fires_once_witness :
    (WeeklyIronfly.update_pnl_monitor config 25900 quotesZero cwcAdj nwcAdj execOK ifStC).1.is_adjusted = true ∧
    (WeeklyIronfly.update_pnl_monitor config 25900 quotesZero cwcAdj nwcAdj execOK ifStC).2 =
      [⟨"IF25950CE_N", 75, "SELL", "IF_ADJ_CE_SHORT", "2026-01-20"⟩,
       ⟨"IF25950CE_W", 75, "BUY", "IF_ADJ_CE_LONG", "2026-01-13"⟩] ∧
    WeeklyIronfly.update_pnl_monitor config 25900 quotesZero cwcAdj nwcAdj execOK ifStAdj =
      WeeklyIronfly.exit_all_positions execOK "POST_ADJ_SL_HIT" ifStAdj ∧
    (WeeklyIronfly.update_pnl_monitor config 25900 quotesZero cwcAdj nwcAdj execOK ifStAdj).1.positions = [] ∧
    (WeeklyIronfly.update_pnl_monitor config 25900 quotesZero cwcAdj nwcAdj execOK ifStAdj).1.is_adjusted = false := by
  have hsl : WeeklyIronfly.calculate_total_pnl quotesZero [ifPosC] / config.IRONFLY_CAPITAL ≤
      -config.IRONFLY_SL_PERCENT := by
    norm_num [WeeklyIronfly.calculate_total_pnl, quotesZero, ifPosC, config]
  have hadj := (c7_hedge_fires_once 25900 quotesZero cwcAdj nwcAdj execOK ifStC).2.1
    ifPosC
    ⟨25950, 15/100, 2/52, "2026-01-20", "IF25950CE_N", 70, "c", none⟩
    ⟨25950, 15/100, 1/52, "2026-01-13", "IF25950CE_W", 40, "c", none⟩
    (by simp [ifStC]) rfl hsl (by simp [cwcAdj])
    (by simp [WeeklyIronfly.leg1_lookup, ifStC, ifPosC, strContains, charInfix, List.isPrefixOf])
    (by simp [nwcAdj, ifPosC, config, beq_iff_eq]; norm_num)
    (by simp [cwcAdj, ifPosC, config, beq_iff_eq]; norm_num)
  have hexit := (c7_hedge_fires_once 25900 quotesZero cwcAdj nwcAdj execOK ifStAdj).2.2
    (by simp [ifStAdj]) rfl hsl
  exact ⟨hadj.1, hadj.2, hexit.1, hexit.2.1, hexit.2.2⟩

end Algo
